import Mathlib

set_option maxRecDepth 10000

/-!
Shallow embedding of the PO-CLASSIFIER repository (src/app.py, src/classifier.py,
src/taxonomy.py) and proofs about the claims on its classification core.

Python values that classification code manipulates (results of `json.loads`,
dictionary fields, strings) are modelled by the inductive type `JVal`; Python
dictionaries are association lists built with Python's insert-or-overwrite
semantics, so keys are unique and in insertion order, matching `dict`.
Machine floats are modelled by `PyFloat`: a finite exact decimal rational
`PyNum` (mantissa times a power of ten, normalized), an infinity, or nan.
Every numeric literal in JSON and every threshold in the code (0, 0.5,
0.8, 1) is an exact decimal, the code only ever compares numbers, and the
comparison functions give nan and the infinities Python's semantics (every
comparison involving nan is false), so the model captures the float
comparisons faithfully — including `float("nan")` slipping through the
confidence range check — on all inputs the claims quantify over.
-/

/-- An exact decimal rational `mant * 10 ^ exp10`, the value domain of JSON
number literals. Kept normalized (`10 ∤ mant`, and `0` is `(0, 0)`) so that
structural equality is value equality, matching Python `==` on floats. -/
structure PyNum where
  mant : Int
  exp10 : Int
deriving Repr, DecidableEq

/-- `10 ^ n` as an integer. -/
def ipow10 (n : Nat) : Int := ((10 ^ n : Nat) : Int)

/-- Strip factors of ten from the mantissa (fuel-driven). -/
def stripTens : Nat → Int → Int → Int × Int
  | 0, m, e => (m, e)
  | fuel + 1, m, e =>
    if m ≠ 0 ∧ m % 10 = 0 then stripTens fuel (m / 10) (e + 1) else (m, e)

/-- Normalizing constructor for `PyNum`. -/
def PyNum.make (m e : Int) : PyNum :=
  if m = 0 then ⟨0, 0⟩
  else
    let p := stripTens m.natAbs m e
    ⟨p.1, p.2⟩

/-- Comparison `a ≤ b` of exact decimals by cross-multiplying with the
power of ten that clears the smaller exponent. -/
def PyNum.le (a b : PyNum) : Bool :=
  if b.exp10 ≤ a.exp10 then a.mant * ipow10 (a.exp10 - b.exp10).toNat ≤ b.mant
  else a.mant ≤ b.mant * ipow10 (b.exp10 - a.exp10).toNat

/-- Comparison `a < b`. -/
def PyNum.lt (a b : PyNum) : Bool :=
  if b.exp10 ≤ a.exp10 then a.mant * ipow10 (a.exp10 - b.exp10).toNat < b.mant
  else a.mant < b.mant * ipow10 (b.exp10 - a.exp10).toNat

/-- The rational value of an exact decimal (used to state claims against
ordinary arithmetic). -/
def PyNum.val (a : PyNum) : ℚ := (a.mant : ℚ) * (10 : ℚ) ^ a.exp10

/-- Whitespace as Python `str.strip` treats it (the ASCII subset; the source
strings only contain these). Mirrors `str.strip()`'s character class. -/
def pyWsChar (c : Char) : Bool :=
  c = ' ' || c = '\t' || c = '\n' || c = '\r' || c = '\x0b' || c = '\x0c'

/-- Python `str.strip()` on the character-list view. -/
def pyStripL (cs : List Char) : List Char :=
  ((cs.dropWhile pyWsChar).reverse.dropWhile pyWsChar).reverse

/-- Python `str.strip()`. -/
def pyStrip (s : String) : String :=
  ⟨pyStripL s.data⟩

/-- Python `str.lower()` on a character (ASCII range, which is all the source
exercises). -/
def pyLowerChar (c : Char) : Char :=
  if 'A' ≤ c ∧ c ≤ 'Z' then Char.ofNat (c.toNat + 32) else c

/-- Python `str.lower()`. -/
def pyLower (s : String) : String :=
  ⟨s.data.map pyLowerChar⟩

/-- A Python value as the classification core sees it: the result of
`json.loads`, a field of a parsed record, or `None`. -/
inductive JVal where
  | jnull
  | jbool (b : Bool)
  | jnum (n : PyNum)
  | jstr (s : String)
  | jarr (xs : List JVal)
  | jobj (fields : List (String × JVal))
deriving Repr

mutual

/-- Decidable equality on `JVal` (the nested `List` occurrences prevent
deriving it). -/
def jvalDecEq : (a b : JVal) → Decidable (a = b)
  | .jnull, .jnull => isTrue rfl
  | .jnull, .jbool _ => isFalse (fun h => JVal.noConfusion h)
  | .jnull, .jnum _ => isFalse (fun h => JVal.noConfusion h)
  | .jnull, .jstr _ => isFalse (fun h => JVal.noConfusion h)
  | .jnull, .jarr _ => isFalse (fun h => JVal.noConfusion h)
  | .jnull, .jobj _ => isFalse (fun h => JVal.noConfusion h)
  | .jbool _, .jnull => isFalse (fun h => JVal.noConfusion h)
  | .jbool a, .jbool b =>
    match decEq a b with
    | isTrue h => isTrue (by rw [h])
    | isFalse h => isFalse (by simp [h])
  | .jbool _, .jnum _ => isFalse (fun h => JVal.noConfusion h)
  | .jbool _, .jstr _ => isFalse (fun h => JVal.noConfusion h)
  | .jbool _, .jarr _ => isFalse (fun h => JVal.noConfusion h)
  | .jbool _, .jobj _ => isFalse (fun h => JVal.noConfusion h)
  | .jnum _, .jnull => isFalse (fun h => JVal.noConfusion h)
  | .jnum _, .jbool _ => isFalse (fun h => JVal.noConfusion h)
  | .jnum a, .jnum b =>
    match decEq a b with
    | isTrue h => isTrue (by rw [h])
    | isFalse h => isFalse (by simp [h])
  | .jnum _, .jstr _ => isFalse (fun h => JVal.noConfusion h)
  | .jnum _, .jarr _ => isFalse (fun h => JVal.noConfusion h)
  | .jnum _, .jobj _ => isFalse (fun h => JVal.noConfusion h)
  | .jstr _, .jnull => isFalse (fun h => JVal.noConfusion h)
  | .jstr _, .jbool _ => isFalse (fun h => JVal.noConfusion h)
  | .jstr _, .jnum _ => isFalse (fun h => JVal.noConfusion h)
  | .jstr a, .jstr b =>
    match decEq a b with
    | isTrue h => isTrue (by rw [h])
    | isFalse h => isFalse (by simp [h])
  | .jstr _, .jarr _ => isFalse (fun h => JVal.noConfusion h)
  | .jstr _, .jobj _ => isFalse (fun h => JVal.noConfusion h)
  | .jarr _, .jnull => isFalse (fun h => JVal.noConfusion h)
  | .jarr _, .jbool _ => isFalse (fun h => JVal.noConfusion h)
  | .jarr _, .jnum _ => isFalse (fun h => JVal.noConfusion h)
  | .jarr _, .jstr _ => isFalse (fun h => JVal.noConfusion h)
  | .jarr xs, .jarr ys =>
    match jlistDecEq xs ys with
    | isTrue h => isTrue (by rw [h])
    | isFalse h => isFalse (by simp [h])
  | .jarr _, .jobj _ => isFalse (fun h => JVal.noConfusion h)
  | .jobj _, .jnull => isFalse (fun h => JVal.noConfusion h)
  | .jobj _, .jbool _ => isFalse (fun h => JVal.noConfusion h)
  | .jobj _, .jnum _ => isFalse (fun h => JVal.noConfusion h)
  | .jobj _, .jstr _ => isFalse (fun h => JVal.noConfusion h)
  | .jobj _, .jarr _ => isFalse (fun h => JVal.noConfusion h)
  | .jobj xs, .jobj ys =>
    match jfieldsDecEq xs ys with
    | isTrue h => isTrue (by rw [h])
    | isFalse h => isFalse (by simp [h])

/-- Decidable equality on lists of `JVal`. -/
def jlistDecEq : (a b : List JVal) → Decidable (a = b)
  | [], [] => isTrue rfl
  | [], _ :: _ => isFalse (fun h => List.noConfusion h)
  | _ :: _, [] => isFalse (fun h => List.noConfusion h)
  | x :: xs, y :: ys =>
    match jvalDecEq x y, jlistDecEq xs ys with
    | isTrue h1, isTrue h2 => isTrue (by rw [h1, h2])
    | isFalse h1, _ => isFalse (by simp [h1])
    | _, isFalse h2 => isFalse (by simp [h2])

/-- Decidable equality on association lists of `JVal`. -/
def jfieldsDecEq : (a b : List (String × JVal)) → Decidable (a = b)
  | [], [] => isTrue rfl
  | [], _ :: _ => isFalse (fun h => List.noConfusion h)
  | _ :: _, [] => isFalse (fun h => List.noConfusion h)
  | (k1, v1) :: xs, (k2, v2) :: ys =>
    match decEq k1 k2, jvalDecEq v1 v2, jfieldsDecEq xs ys with
    | isTrue h1, isTrue h2, isTrue h3 => isTrue (by rw [h1, h2, h3])
    | isFalse h1, _, _ => isFalse (by simp [h1])
    | _, isFalse h2, _ => isFalse (by simp [h2])
    | _, _, isFalse h3 => isFalse (by simp [h3])

end

instance : DecidableEq JVal := jvalDecEq

/-- A Python dictionary: association list with unique keys in insertion
order (the invariant Python's `dict` maintains and `dictInsert` preserves). -/
abbrev PyDict := List (String × JVal)

/-- `d[k] = v` on a Python dict: overwrite in place when the key exists,
append otherwise. -/
def dictInsert (m : PyDict) (k : String) (v : JVal) : PyDict :=
  if m.any (fun p => p.1 = k) then
    m.map (fun p => if p.1 = k then (k, v) else p)
  else
    m ++ [(k, v)]

/-- Python `k in d`. -/
def pyHasKey (m : PyDict) (k : String) : Bool :=
  m.any (fun p => p.1 = k)

/-- Python `d.get(k)` / `d[k]` (`none` when the key is absent). -/
def pyGet (m : PyDict) (k : String) : Option JVal :=
  (m.find? (fun p => p.1 = k)).map Prod.snd

/-- Python truthiness of a value (`bool(v)`), used by the source's
`l3 or ''` and `pred_l3 or ""` idioms. -/
def pyFalsy : JVal → Bool
  | .jnull => true
  | .jbool b => !b
  | .jnum n => n.mant = 0
  | .jstr s => s = ""
  | .jarr xs => xs.isEmpty
  | .jobj fs => fs.isEmpty

/-- The opening brace character. -/
def lbrace : Char := Char.ofNat 123

/-- The closing brace character. -/
def rbrace : Char := Char.ofNat 125

/-- Digits of a nonnegative decimal literal to a natural number. -/
def digitsToNat (ds : List Char) : Nat :=
  ds.foldl (fun n c => 10 * n + (c.toNat - 48)) 0

/-- Fractional part of a JSON number: the digits after `.`, absent when the
input has no fraction, failure when a `.` is not followed by a digit. -/
def parseFrac (cs : List Char) : Option (List Char × List Char) :=
  match cs with
  | '.' :: t =>
    let fd := t.takeWhile Char.isDigit
    if fd.isEmpty then none
    else some (fd, t.dropWhile Char.isDigit)
  | _ => some ([], cs)

/-- Exponent part of a JSON number (`e`/`E` with optional sign), `0` when
absent, failure when the marker is not followed by a digit. -/
def parseExp (cs : List Char) : Option (Int × List Char) :=
  match cs with
  | e :: t =>
    if e = 'e' ∨ e = 'E' then
      let (eneg, t1) :=
        match t with
        | '-' :: t2 => (true, t2)
        | '+' :: t2 => (false, t2)
        | _ => (false, t)
      let ed := t1.takeWhile Char.isDigit
      if ed.isEmpty then none
      else
        let n : Int := (digitsToNat ed : Int)
        some (if eneg then -n else n, t1.dropWhile Char.isDigit)
    else some (0, cs)
  | [] => some (0, cs)

/-- Parse the numeric grammar of JSON (`-?int frac? exp?`), as `json.loads`
accepts it, returning the exact decimal value and the rest of the input. -/
def parseNum (cs : List Char) : Option (PyNum × List Char) :=
  let (neg, cs1) :=
    match cs with
    | '-' :: t => (true, t)
    | _ => (false, cs)
  match cs1 with
  | [] => none
  | c :: _ =>
    if ¬ c.isDigit then none
    else
      let (ids, r1) :=
        if c = '0' then ([c], cs1.tail)
        else (cs1.takeWhile Char.isDigit, cs1.dropWhile Char.isDigit)
      match parseFrac r1 with
      | none => none
      | some (fd, r2) =>
        match parseExp r2 with
        | none => none
        | some (ex, r3) =>
          let mant : Int := (digitsToNat (ids ++ fd) : Int)
          let mant := if neg then -mant else mant
          some (PyNum.make mant (ex - fd.length), r3)

/-- Hex digit value. -/
def hexVal (c : Char) : Option Nat :=
  if '0' ≤ c ∧ c ≤ '9' then some (c.toNat - 48)
  else if 'a' ≤ c ∧ c ≤ 'f' then some (c.toNat - 87)
  else if 'A' ≤ c ∧ c ≤ 'F' then some (c.toNat - 55)
  else none

/-- JSON string whitespace skipping, as `json.loads` does between tokens. -/
def skipWs (cs : List Char) : List Char :=
  cs.dropWhile (fun c => c = ' ' || c = '\t' || c = '\n' || c = '\r')

/-- Body of a JSON string literal after the opening quote: handles the
escape sequences `json.loads` accepts and rejects raw control characters
(strict mode). Lone surrogates, which Python can represent and Lean cannot,
come out as `Char.ofNat`'s fallback; no claim exercises them. -/
def parseJStr : Nat → List Char → List Char → Option (String × List Char)
  | 0, _, _ => none
  | _ + 1, [], _ => none
  | fuel + 1, c :: t, acc =>
    if c = '"' then some (⟨acc.reverse⟩, t)
    else if c = '\\' then
      match t with
      | [] => none
      | e :: t2 =>
        if e = '"' then parseJStr fuel t2 ('"' :: acc)
        else if e = '\\' then parseJStr fuel t2 ('\\' :: acc)
        else if e = '/' then parseJStr fuel t2 ('/' :: acc)
        else if e = 'b' then parseJStr fuel t2 ('\x08' :: acc)
        else if e = 'f' then parseJStr fuel t2 ('\x0c' :: acc)
        else if e = 'n' then parseJStr fuel t2 ('\n' :: acc)
        else if e = 'r' then parseJStr fuel t2 ('\r' :: acc)
        else if e = 't' then parseJStr fuel t2 ('\t' :: acc)
        else if e = 'u' then
          match t2 with
          | h1 :: h2 :: h3 :: h4 :: t3 =>
            match hexVal h1, hexVal h2, hexVal h3, hexVal h4 with
            | some a, some b, some cdig, some d =>
              parseJStr fuel t3
                (Char.ofNat (((a * 16 + b) * 16 + cdig) * 16 + d) :: acc)
            | _, _, _, _ => none
          | _ => none
        else none
    else if c.toNat < 32 then none
    else parseJStr fuel t (c :: acc)

/-- Check that the input starts with the given literal tail (for `true`,
`false`, `null`). -/
def expectLit : List Char → List Char → Option (List Char)
  | [], cs => some cs
  | l :: ls, c :: cs => if c = l then expectLit ls cs else none
  | _ :: _, [] => none

mutual

/-- One JSON value, per the grammar `json.loads` decodes. -/
def parseVal : Nat → List Char → Option (JVal × List Char)
  | 0, _ => none
  | fuel + 1, cs =>
    match skipWs cs with
    | [] => none
    | c :: t =>
      if c = lbrace then parseObj fuel t [] true
      else if c = '[' then parseArr fuel t [] true
      else if c = '"' then
        (parseJStr fuel t []).map (fun p => (JVal.jstr p.1, p.2))
      else if c = 't' then
        (expectLit ['r', 'u', 'e'] t).map (fun r => (JVal.jbool true, r))
      else if c = 'f' then
        (expectLit ['a', 'l', 's', 'e'] t).map (fun r => (JVal.jbool false, r))
      else if c = 'n' then
        (expectLit ['u', 'l', 'l'] t).map (fun r => (JVal.jnull, r))
      else
        (parseNum (c :: t)).map (fun p => (JVal.jnum p.1, p.2))

/-- Members of a JSON object, building the dictionary exactly as Python
does (later duplicate keys overwrite in place). -/
def parseObj : Nat → List Char → PyDict → Bool → Option (JVal × List Char)
  | 0, _, _, _ => none
  | fuel + 1, cs, acc, first =>
    match skipWs cs with
    | [] => none
    | c :: t =>
      if first ∧ c = rbrace then some (JVal.jobj acc, t)
      else if c = '"' then
        match parseJStr fuel t [] with
        | none => none
        | some (k, r1) =>
          match skipWs r1 with
          | ':' :: r2 =>
            match parseVal fuel r2 with
            | none => none
            | some (v, r3) =>
              let acc2 := dictInsert acc k v
              match skipWs r3 with
              | ',' :: r4 => parseObj fuel r4 acc2 false
              | c2 :: r5 =>
                if c2 = rbrace then some (JVal.jobj acc2, r5) else none
              | [] => none
          | _ => none
      else none

/-- Elements of a JSON array. -/
def parseArr : Nat → List Char → List JVal → Bool → Option (JVal × List Char)
  | 0, _, _, _ => none
  | fuel + 1, cs, acc, first =>
    match skipWs cs with
    | [] => none
    | c :: t =>
      if first ∧ c = ']' then some (JVal.jarr acc.reverse, t)
      else
        match parseVal fuel (c :: t) with
        | none => none
        | some (v, r1) =>
          match skipWs r1 with
          | ',' :: r2 => parseArr fuel r2 (v :: acc) false
          | ']' :: r2 => some (JVal.jarr (v :: acc).reverse, r2)
          | _ => none

end

/-- Model of Python `json.loads` on a string: decode one value, require
only whitespace after it, fail otherwise. (Python additionally accepts the
non-JSON constants `NaN`/`Infinity`, which no claim exercises and this model
rejects.) -/
def jsonLoads (s : String) : Option JVal :=
  match parseVal (4 * s.length + 16) s.data with
  | some (v, rest) => if skipWs rest = [] then some v else none
  | none => none

/-- The static taxonomy definition of `src/taxonomy.py` (the `TAXONOMY`
triple-quoted literal, verbatim). -/
def TAXONOMY : String :=
"\nL1 | L2 | L3\n---|---|---\nBanking & Financial | Banking Charges |\nBanking & Financial | Global Rating |\nBanking & Financial | Insurance |\nFacilities | Food Services |\nFacilities | Janitorial Services |\nFacilities | Security Services |\nFacilities | Uniform |\nHR | Employee Benefits |\nHR | Employee Recognition |\nHR | Recruitment Services |\nHR | Training |\nIT | Hardware | Accessories\nIT | Hardware | Laptop\nIT | Hardware | Mobile\nIT | Software | Licenses Cost\nIT | Software | Subscription\nProfessional Services | Audit Services |\nProfessional Services | Consulting Services |\nProfessional Services | Legal Services |\nProfessional Services | Risk Consulting Services |\nT&E | Air |\nT&E | Food |\nT&E | GROUND TRANSPORTATION |\nT&E | Hotel |\nT&E | Parking fees |\nUnaddressable | Tax |\nUtilities | Power |\nUtilities | Water |\n"

/-- Split a character list on a single separator character (Python
`str.split(sep)` / `str.splitlines()` for the single-character separators
the source uses; the split pieces keep empty segments, as Python does). -/
def splitOnChar (sep : Char) : List Char → List (List Char)
  | [] => [[]]
  | c :: t =>
    match splitOnChar sep t with
    | [] => [[]]
    | h :: r => if c = sep then [] :: h :: r else (c :: h) :: r

/-- Python `str.startswith(pre)`. -/
def pyStarts (s pre : String) : Bool :=
  s.data.take pre.data.length = pre.data

/-- `taxonomy.get_taxonomy_rows`: strip the literal, split into lines, skip
blank/header/separator lines, split each row on `|`, strip the parts and pad
to three columns. -/
def get_taxonomy_rows : List (String × String × String) :=
  ((splitOnChar '\n' (pyStrip TAXONOMY).data).map String.mk).filterMap
    (fun rawLine =>
      let line := pyStrip rawLine
      if line = "" ∨ pyStarts line "L1 " ∨ pyStarts line "---" then none
      else
        let parts := ((splitOnChar '|' line.data).map String.mk).map pyStrip
        let parts := parts ++ List.replicate (3 - parts.length) ""
        some (parts.getD 0 "", parts.getD 1 "", parts.getD 2 ""))

/-- `taxonomy.get_taxonomy_set`: the composite keys `L1|L2|L3` of all rows
(a Python `set`, modelled as the list of keys with membership testing). -/
def get_taxonomy_set : List String :=
  get_taxonomy_rows.map (fun r => r.1 ++ "|" ++ r.2.1 ++ "|" ++ r.2.2)

/-- Insert-or-overwrite on a string-keyed association list (Python dict
assignment, generic value type). -/
def assocInsert {α : Type} (m : List (String × α)) (k : String) (v : α) :
    List (String × α) :=
  if m.any (fun p => p.1 = k) then
    m.map (fun p => if p.1 = k then (k, v) else p)
  else
    m ++ [(k, v)]

/-- Lookup on a string-keyed association list (Python `d.get(k)`). -/
def assocGet {α : Type} (m : List (String × α)) (k : String) : Option α :=
  (m.find? (fun p => p.1 = k)).map Prod.snd

/-- `app._extract_levels`: build `key_map` from normalized (stripped,
lowercased) key names to original key names by dict comprehension (later
duplicates overwrite), then look the three levels up through it. A missing
key and a JSON `null` value both come out as `jnull`, exactly as both come
out as Python `None` in the source. -/
def extract_levels (parsed : PyDict) : JVal × JVal × JVal :=
  let keyMap := parsed.foldl
    (fun m p => assocInsert m (pyLower (pyStrip p.1)) p.1)
    ([] : List (String × String))
  let level := fun (name : String) =>
    match assocGet keyMap name with
    | some orig => (pyGet parsed orig).getD JVal.jnull
    | none => JVal.jnull
  (level "l1", level "l2", level "l3")

/-- `app._parse_result`: a dict is returned as-is; a string goes through
`json.loads`, any decode exception giving `None`; anything else gives
`None`. Python `None` is `jnull`, so a string decoding to JSON `null` is
indistinguishable from a decode failure, exactly as in the source. -/
def parse_result : JVal → JVal
  | .jobj fs => .jobj fs
  | .jstr s => (jsonLoads s).getD JVal.jnull
  | _ => JVal.jnull

/-- `classifier.parse_model_response`: `json.loads` under `try`, `None` on
any exception. -/
def parse_model_response (raw : String) : JVal :=
  (jsonLoads raw).getD JVal.jnull

/-- `app._cache_key`: `f"{description.strip().lower()}|{supplier.strip().lower()}"`. -/
def cache_key (description supplier : String) : String :=
  pyLower (pyStrip description) ++ "|" ++ pyLower (pyStrip supplier)

/-- Python `key in container` for the containers the validator can receive:
key membership for a dict, element equality for a list, substring test for
a string; `none` models the `TypeError` raised on any other type. -/
def pyContains (container : JVal) (key : String) : Option Bool :=
  match container with
  | .jobj fs => some (pyHasKey fs key)
  | .jarr xs => some (xs.any (fun v =>
      match v with
      | .jstr s => s = key
      | _ => false))
  | .jstr s => some (decide (List.IsInfix key.data s.data))
  | _ => none

/-- `app._validate_schema`: collect the required keys `L1`, `L2`, `L3` that
are not `in` the argument (exact-case membership); valid iff none are
missing, message enumerating the missing names in that order. The argument
is annotated `dict` in the source but the call sites can pass any decoded
value; `none` models the `TypeError` that `in` raises on non-containers. -/
def validate_schema (parsed : JVal) : Option (Bool × String) :=
  match pyContains parsed "L1", pyContains parsed "L2", pyContains parsed "L3" with
  | some h1, some h2, some h3 =>
    let missing := (if h1 then [] else ["L1"]) ++ (if h2 then [] else ["L2"])
      ++ (if h3 then [] else ["L3"])
    if missing.isEmpty then some (true, "OK")
    else some (false, "Missing fields: " ++ String.intercalate ", " missing)
  | _, _, _ => none

/-- Nominal decimal rendering of a number, standing in for Python `str` on
a float. The source only uses it to build taxonomy keys, and no taxonomy
entry is numeric, so the exact rendering is never observable in a claim. -/
def pyNumStr (n : PyNum) : String :=
  if 0 ≤ n.exp10 then toString (n.mant * ipow10 n.exp10.toNat)
  else
    let ds := toString n.mant.natAbs
    let k := n.exp10.natAbs
    let ds := if ds.length ≤ k then
        String.mk (List.replicate (k + 1 - ds.length) '0') ++ ds
      else ds
    let cut := ds.length - k
    (if n.mant < 0 then "-" else "") ++
      ⟨ds.data.take cut⟩ ++ "." ++ ⟨ds.data.drop cut⟩

/-- Python `str(v)` on the values the source passes to it. Scalars render
as Python renders them; the rendering of containers is nominal (Python
would render their elements), which is observationally equivalent here
because the only use is taxonomy-key building and no taxonomy entry
contains brackets or braces. -/
def pyStr : JVal → String
  | .jnull => "None"
  | .jbool true => "True"
  | .jbool false => "False"
  | .jnum n => pyNumStr n
  | .jstr s => s
  | .jarr _ => "[...]"
  | .jobj _ => "\x7b...\x7d"

/-- `app._taxonomy_status` (on a dict, the only call shape that does not
raise): extract the levels; if L1 or L2 is `None`, report the incomplete
outcome; otherwise build `trim(str(L1))|trim(str(L2))|trim(str(L3 or ""))`
and test membership in the taxonomy set. -/
def taxonomy_status (parsed : PyDict) : Option Bool × String :=
  let levels := extract_levels parsed
  let l1 := levels.1
  let l2 := levels.2.1
  let l3 := levels.2.2
  if l1 = JVal.jnull ∨ l2 = JVal.jnull then
    (none, "Classification missing L1/L2 fields - needs review.")
  else
    let key := pyStrip (pyStr l1) ++ "|" ++ pyStrip (pyStr l2) ++ "|"
      ++ pyStrip (pyStr (if pyFalsy l3 then JVal.jstr "" else l3))
    if ¬ (key ∈ get_taxonomy_set) then
      (some false, "Classification not in taxonomy - needs review.")
    else
      (some true, "Classification matches taxonomy.")

/-- A Python float as `float()` can produce it: a finite exact decimal,
an infinity, or nan. All nans are collapsed (Python renders the negative
nan as `nan` too, and no code here distinguishes them). -/
inductive PyFloat where
  | fin (v : PyNum)
  | pinf
  | ninf
  | nan
deriving Repr, DecidableEq

/-- Python `<` on floats: nan is unordered, so every comparison involving
it is false; infinities compare in the usual way. -/
def PyFloat.lt : PyFloat → PyFloat → Bool
  | .nan, _ => false
  | _, .nan => false
  | .fin a, .fin b => PyNum.lt a b
  | .ninf, .ninf => false
  | .ninf, _ => true
  | _, .ninf => false
  | .pinf, _ => false
  | .fin _, .pinf => true

/-- Python `<=` on floats (used reversed for the source's `>=`): false on
any nan operand. -/
def PyFloat.le : PyFloat → PyFloat → Bool
  | .nan, _ => false
  | _, .nan => false
  | .fin a, .fin b => PyNum.le a b
  | .ninf, _ => true
  | _, .ninf => false
  | _, .pinf => true
  | .pinf, .fin _ => false

/-- Maximal `digit (_? digit)*` prefix of a Python numeric token: the
digits with their single separating underscores removed, and the rest of
the input. An underscore not followed by a digit is left in the rest,
which makes the surrounding parse fail, exactly as `float()` rejects
`"1_"`, `"1__2"` or `"1_.2"` while accepting `"0.2_5"`. -/
def digitGroup : Nat → List Char → List Char × List Char
  | 0, cs => ([], cs)
  | fuel + 1, cs =>
    match cs with
    | c :: t =>
      if c.isDigit then
        match t with
        | '_' :: d :: t2 =>
          if d.isDigit then
            let p := digitGroup fuel (d :: t2)
            (c :: p.1, p.2)
          else ([c], t)
        | _ =>
          let p := digitGroup fuel t
          (c :: p.1, p.2)
      else ([], cs)
    | [] => ([], cs)

/-- `digitGroup` with enough fuel for its input. -/
def takeDigitGroup (cs : List Char) : List Char × List Char :=
  digitGroup cs.length cs

/-- Exponent part of a Python float literal: like the JSON exponent but
the digit run may contain single underscores between digits. -/
def parseExpPy (cs : List Char) : Option (Int × List Char) :=
  match cs with
  | e :: t =>
    if e = 'e' ∨ e = 'E' then
      let (eneg, t1) :=
        match t with
        | '-' :: t2 => (true, t2)
        | '+' :: t2 => (false, t2)
        | _ => (false, t)
      let p := takeDigitGroup t1
      if p.1.isEmpty then none
      else
        let n : Int := (digitsToNat p.1 : Int)
        some (if eneg then -n else n, p.2)
    else some (0, cs)
  | [] => some (0, cs)

/-- Python `float(x)` on a string (the ASCII subset the source can see):
optional surrounding whitespace and sign, then either the case-insensitive
special spellings `nan`, `inf`, `infinity`, or `digits [. digits] [exp]`
with at least one digit, where every digit run may contain single
underscores between digits; `none` models `ValueError`. -/
def pyFloatOfString (s : String) : Option PyFloat :=
  let cs := pyStripL s.data
  let (neg, cs1) :=
    match cs with
    | '-' :: t => (true, t)
    | '+' :: t => (false, t)
    | _ => (false, cs)
  let low := cs1.map pyLowerChar
  if low = ['n', 'a', 'n'] then some .nan
  else if low = ['i', 'n', 'f'] ∨
      low = ['i', 'n', 'f', 'i', 'n', 'i', 't', 'y'] then
    some (if neg then .ninf else .pinf)
  else
    let p1 := takeDigitGroup cs1
    let ids := p1.1
    let p2 :=
      match p1.2 with
      | '.' :: t => takeDigitGroup t
      | _ => (([] : List Char), p1.2)
    let fd := p2.1
    match parseExpPy p2.2 with
    | none => none
    | some (ex, r3) =>
      if r3 ≠ [] then none
      else if ids.isEmpty ∧ fd.isEmpty then none
      else
        let mant : Int := (digitsToNat (ids ++ fd) : Int)
        some (.fin (PyNum.make (if neg then -mant else mant) (ex - fd.length)))

/-- Python `float(x)` on a value: numbers pass through, booleans coerce to
0/1, strings parse, everything else raises (`none`). -/
def pyFloat : JVal → Option PyFloat
  | .jnum n => some (.fin n)
  | .jbool b => some (.fin (if b then ⟨1, 0⟩ else ⟨0, 0⟩))
  | .jstr s => pyFloatOfString s
  | _ => none

/-- `app._confidence_value`: read the optional `confidence` field (exact
key; a dict-typed argument is required by every call site, a non-dict gives
`None`), coerce with `float` under `try`, and discard values for which
`value < 0 or value > 1` holds. Note nan fails BOTH comparisons, so a nan
confidence is returned, not discarded — the range check does not mean
membership in `[0, 1]`. -/
def confidence_value (parsed : JVal) : Option PyFloat :=
  let raw : JVal :=
    match parsed with
    | .jobj fs => (pyGet fs "confidence").getD JVal.jnull
    | _ => JVal.jnull
  match raw with
  | .jnull => none
  | v =>
    match pyFloat v with
    | none => none
    | some value =>
      if PyFloat.lt value (.fin ⟨0, 0⟩) || PyFloat.lt (.fin ⟨1, 0⟩) value then
        none
      else some value

/-- Python `f"{v:.2f}"` on an exact decimal: round to two decimal places,
ties to even. (On a concrete binary float Python rounds the double; the
difference is invisible to every claim, which only inspect the band.) -/
def fmt2 (v : PyNum) : String :=
  let e := v.exp10 + 2
  let scaled : Int :=
    if 0 ≤ e then v.mant * ipow10 e.toNat
    else
      let d := (-e).toNat
      let q := v.mant.natAbs / (ipow10 d).toNat
      let r := v.mant.natAbs % (ipow10 d).toNat
      let half := (ipow10 d).toNat / 2
      let qr : Nat :=
        if r > half then q + 1
        else if r < half then q
        else if q % 2 = 0 then q else q + 1
      if v.mant < 0 then -(qr : Int) else (qr : Int)
  let a := scaled.natAbs
  (if scaled < 0 then "-" else "") ++ toString (a / 100) ++ "." ++
    (if a % 100 < 10 then "0" else "") ++ toString (a % 100)

/-- Python `f"{v:.2f}"` on a float: two-decimal rendering of a finite
value, and the special spellings `nan`, `inf`, `-inf` (Python renders a
negative nan as `nan` too). -/
def PyFloat.fmt : PyFloat → String
  | .fin v => fmt2 v
  | .nan => "nan"
  | .pinf => "inf"
  | .ninf => "-inf"

/-- `app._confidence_label`: `-` when absent, then the inclusive-lower-bound
bands at 0.8 and 0.5 with the value rendered to two decimals. Both band
comparisons are false on nan, so a nan value falls through to the `Low`
branch and is labeled `Low (nan)`. -/
def confidence_label (value : Option PyFloat) : String :=
  match value with
  | none => "-"
  | some v =>
    if PyFloat.le (.fin ⟨8, -1⟩) v then "High (" ++ PyFloat.fmt v ++ ")"
    else if PyFloat.le (.fin ⟨5, -1⟩) v then "Medium (" ++ PyFloat.fmt v ++ ")"
    else "Low (" ++ PyFloat.fmt v ++ ")"

/-- Session state the orchestration touches: the classification cache and
the number of collaborator (`classify_po`) invocations so far. The
collaborator is a parameter `oracle : Nat → Option String` giving the raw
text of the n-th invocation, `none` when `classify_po` raises after its
internal transport retries. -/
structure OrchState where
  cache : List (String × JVal)
  calls : Nat
deriving Repr, DecidableEq

/-- `app._cached_classify`: normalized key lookup; on a hit return the
cached value without any collaborator call; on a miss invoke the
collaborator (`.error` propagates its exception), parse, and write through
to the cache exactly when the parse result is not `None`. -/
def cached_classify (description supplier : String) (st : OrchState)
    (oracle : Nat → Option String) : Except Unit JVal × OrchState :=
  let key := cache_key description supplier
  match assocGet st.cache key with
  | some v => (.ok v, st)
  | none =>
    match oracle st.calls with
    | none => (.error (), ⟨st.cache, st.calls + 1⟩)
    | some raw =>
      let parsed := parse_result (JVal.jstr raw)
      if parsed = JVal.jnull then (.ok parsed, ⟨st.cache, st.calls + 1⟩)
      else (.ok parsed, ⟨st.cache ++ [(key, parsed)], st.calls + 1⟩)

/-- Outcome of one press of the Classify button in the Single tab. The
terminal `invalidResponse` outcome carries the schema message of the second
attempt when it parsed but failed validation, and `none` when even the
second attempt was unparseable; in both cases no classification record is
produced. `crashed` models the uncaught exception paths (validation or
extraction applied to a decoded non-container), which also produce no
record. -/
inductive SingleOutcome where
  | warnedEmpty
  | warnedShort
  | warnedLongSupplier
  | classifyFailed
  | invalidResponse (schemaMsg : Option String)
  | crashed
  | success (parsed : JVal) (l1 l2 l3 : JVal) (status : Option Bool)
      (statusMsg : String) (confidence : Option PyFloat)
deriving Repr, DecidableEq

/-- The retry block of the Single handler (src/app.py lines 224-228): one
more collaborator invocation under `try`, parsed again, any exception
giving `None`. -/
def doRetry (st1 : OrchState) (oracle : Nat → Option String) :
    JVal × OrchState :=
  match oracle st1.calls with
  | none => (JVal.jnull, ⟨st1.cache, st1.calls + 1⟩)
  | some raw => (parse_result (JVal.jstr raw), ⟨st1.cache, st1.calls + 1⟩)

/-- The tail of the Single handler after the optional retry (src/app.py
lines 229-325): the second schema validation, then on a dict the taxonomy
status and confidence interpretation; `invalid model response` when
`parsed` is `None` or schema-invalid, a crash when the decoded value is
not a container or not a dict. -/
def finalStage (parsed : JVal) (st2 : OrchState) : SingleOutcome × OrchState :=
  if parsed = JVal.jnull then (.invalidResponse none, st2)
  else
    match validate_schema parsed with
    | none => (.crashed, st2)
    | some (ok2, msg2) =>
      if ok2 = false then (.invalidResponse (some msg2), st2)
      else
        match parsed with
        | .jobj fs =>
          let levels := extract_levels fs
          let status := taxonomy_status fs
          (.success (.jobj fs) levels.1 levels.2.1 levels.2.2
            status.1 status.2 (confidence_value (.jobj fs)), st2)
        | _ => (.crashed, st2)

/-- The classification stage of the Single-tab handler, after the input
guards (src/app.py lines 203-325): cached classification with its
exception handler, the first schema check, the single retry when the
first result is unparseable or schema-invalid, then the final stage. -/
def classifyStage (desc supp : String) (st : OrchState)
    (oracle : Nat → Option String) : SingleOutcome × OrchState :=
  match cached_classify desc supp st oracle with
    | (.error _, st1) => (.classifyFailed, st1)
    | (.ok result, st1) =>
      let schemaOk1 : Option Bool :=
        if result = JVal.jnull then some false
        else
          match validate_schema result with
          | some pr => some pr.1
          | none => none
      match schemaOk1 with
      | none => (.crashed, st1)
      | some schema_ok =>
        if result = JVal.jnull ∨ schema_ok = false then
          let next := doRetry st1 oracle
          finalStage next.1 next.2
        else finalStage result st1

/-- The Single-tab classify handler (src/app.py lines 187-325): the input
guards (empty or short description, over-long supplier), then the
classification stage on the stripped inputs. -/
def runSingle (po_description supplier : String) (st : OrchState)
    (oracle : Nat → Option String) : SingleOutcome × OrchState :=
  let desc := pyStrip po_description
  let supp := pyStrip supplier
  if desc = "" then (.warnedEmpty, st)
  else if desc.length < 10 then (.warnedShort, st)
  else if supp ≠ "" ∧ supp.length > 80 then (.warnedLongSupplier, st)
  else classifyStage desc supp st oracle

/-- One labeled CSV row of the Evaluate tab. -/
structure EvalRow where
  description : String
  supplier : String
  gl1 : String
  gl2 : String
  gl3 : String
deriving Repr, DecidableEq

/-- Python `==` between a decoded value and a gold string cell. -/
def pyEqStr (v : JVal) (g : String) : Bool :=
  match v with
  | .jstr s => s = g
  | _ => false

/-- One row of the Evaluate loop: `none` in the first component when the
row is skipped for an empty description, otherwise the `match` column
value; the second component is the new invocation count, the third whether
the row counted as correct. Mirrors src/app.py lines 536-601: classify,
retry once only when the parse gave `None`, compare the extracted levels
to the stripped gold labels by exact equality, catch any exception
(collaborator failure or extraction on a non-dict) as an `error` row. -/
def evalRowStep (row : EvalRow) (oracle : Nat → Option String) (calls : Nat) :
    Option String × Nat × Bool :=
  let desc := pyStrip row.description
  let g1 := pyStrip row.gl1
  let g2 := pyStrip row.gl2
  let g3 := pyStrip row.gl3
  let finish : JVal → Nat → Option String × Nat × Bool := fun parsed calls2 =>
    match parsed with
    | .jobj fs =>
      let levels := extract_levels fs
      let m := pyEqStr levels.1 g1 && pyEqStr levels.2.1 g2 &&
        pyEqStr (if pyFalsy levels.2.2 then JVal.jstr "" else levels.2.2) g3
      (some (if m then "yes" else "no"), calls2, m)
    | _ => (some "error", calls2, false)
  if desc = "" then (none, calls, false)
  else
    match oracle calls with
    | none => (some "error", calls + 1, false)
    | some raw =>
      let parsed := parse_result (JVal.jstr raw)
      if parsed = JVal.jnull then
        match oracle (calls + 1) with
        | none => (some "error", calls + 2, false)
        | some raw2 =>
          let parsed2 := parse_result (JVal.jstr raw2)
          if parsed2 = JVal.jnull then (some "error", calls + 2, false)
          else finish parsed2 (calls + 2)
      else finish parsed (calls + 1)

/-- The Evaluate-tab loop from the given invocation count: the `match`
column of every appended result row in row order, the `correct` and `total`
counters, and the final invocation count. -/
def runEval (rows : List EvalRow) (oracle : Nat → Option String)
    (calls : Nat) : List String × Nat × Nat × Nat :=
  match rows with
  | [] => ([], 0, 0, calls)
  | row :: rest =>
    match evalRowStep row oracle calls with
    | (none, calls2, _) => runEval rest oracle calls2
    | (some m, calls2, corr) =>
      let r := runEval rest oracle calls2
      (m :: r.1, (if corr then 1 else 0) + r.2.1, 1 + r.2.2.1, r.2.2.2)

/-- The accuracy metric: `(correct / total) * 100 if total else 0`. -/
def evalAccuracy (correct total : Nat) : ℚ :=
  if total = 0 then 0 else ((correct : ℚ) / (total : ℚ)) * 100

/-- Pointwise equality of character lists up to letter case. -/
def caseEqL : List Char → List Char → Bool
  | [], [] => true
  | x :: xs, y :: ys => (pyLowerChar x = pyLowerChar y) && caseEqL xs ys
  | _, _ => false

/-- Two strings differ only in leading/trailing whitespace and letter
case: once leading and trailing whitespace is stripped, they agree
pointwise up to case. -/
abbrev wsCaseVariant (a b : String) : Prop :=
  caseEqL (pyStripL a.data) (pyStripL b.data) = true

/-- The required keys of `_validate_schema` missing from a record, in the
validator's iteration order (`[key for key in required if key not in parsed]`). -/
def missingOf (parsed : PyDict) : List String :=
  ["L1", "L2", "L3"].filter (fun k => ¬ pyHasKey parsed k)

/-- A raw collaborator response the Single handler treats as malformed: it
fails to parse, or parses to a value the schema validator rejects
(returning `valid=false`, not raising). -/
def malformedResponse (raw : String) : Prop :=
  parse_result (.jstr raw) = JVal.jnull ∨
    (validate_schema (parse_result (.jstr raw))).map Prod.fst = some false

/-- The Single-tab input guards pass: nonempty stripped description of at
least 10 characters and a supplier within 80 characters. -/
def guardsPass (description supplier : String) : Prop :=
  pyStrip description ≠ "" ∧ ¬ (pyStrip description).length < 10 ∧
    ¬ (pyStrip supplier ≠ "" ∧ (pyStrip supplier).length > 80)

/-- The composite key `_taxonomy_status` builds at src/app.py line 110. -/
def taxonomyKeyOf (parsed : PyDict) : String :=
  let levels := extract_levels parsed
  pyStrip (pyStr levels.1) ++ "|" ++ pyStrip (pyStr levels.2.1) ++ "|"
    ++ pyStrip (pyStr (if pyFalsy levels.2.2 then JVal.jstr "" else levels.2.2))

/-- Gold rows for the concrete accuracy scenario of the Evaluate claim:
four labeled rows, three of which the oracle answers with the matching
triple. -/
def demoRows : List EvalRow :=
  [⟨"Laptop purchase for new hires", "", "IT", "Hardware", "Laptop"⟩,
   ⟨"Mobile phones for field staff", "", "IT", "Hardware", "Mobile"⟩,
   ⟨"Leadership training sessions", "", "HR", "Training", ""⟩,
   ⟨"Office water supply", "", "Utilities", "Water", ""⟩]

/-- Collaborator answers for `demoRows`, by invocation index: the first
three match their gold triples (the third through a JSON `null` L3), the
fourth does not. -/
def demoOracle (n : Nat) : Option String :=
  some ([
    "\x7b\"L1\":\"IT\",\"L2\":\"Hardware\",\"L3\":\"Laptop\"\x7d",
    "\x7b\"L1\":\"IT\",\"L2\":\"Hardware\",\"L3\":\"Mobile\"\x7d",
    "\x7b\"L1\":\"HR\",\"L2\":\"Training\",\"L3\":null\x7d",
    "\x7b\"L1\":\"IT\",\"L2\":\"Software\",\"L3\":\"Subscription\"\x7d"].getD n "")

example : jsonLoads "1e2" = some (JVal.jnum ⟨1, 2⟩) := by decide

example : (PyNum.make 100 0) = ⟨1, 2⟩ := by decide

example : PyNum.le ⟨79, -2⟩ ⟨8, -1⟩ = true := by decide

/-! ## Theorems about the claims -/

/-- Smoke checks that the `json.loads` model decodes the shapes the
claims exercise: a three-field object, a rejection, a non-object value,
and exact decimal numbers (with normalization). -/
theorem jsonLoads_smoke :
    jsonLoads "\x7b\"L1\":\"IT\",\"L2\":\"Hardware\",\"L3\":\"Laptop\"\x7d" =
      some (JVal.jobj [("L1", JVal.jstr "IT"), ("L2", JVal.jstr "Hardware"),
        ("L3", JVal.jstr "Laptop")]) ∧
    jsonLoads "not json" = none ∧
    jsonLoads "[1]" = some (JVal.jarr [JVal.jnum ⟨1, 0⟩]) ∧
    jsonLoads " 0.5 " = some (JVal.jnum ⟨5, -1⟩) ∧
    jsonLoads "1e2" = some (JVal.jnum ⟨1, 2⟩) ∧
    PyNum.make 100 0 = ⟨1, 2⟩ ∧
    PyNum.le ⟨79, -2⟩ ⟨8, -1⟩ = true := by
  refine ⟨by decide, by decide, by decide, by decide, by decide, by decide,
    by decide⟩

/-- C5: for every parsed record, the schema validator returns valid=false
exactly when at least one of the required keys L1, L2, L3 is absent from
the mapping (presence, not non-emptiness: an empty-string L3 value is
valid, a missing L3 key is not), and its message enumerates the missing
field names in the order L1, L2, L3. -/
theorem po_c5_schema_validator :
    (∀ parsed : PyDict,
      validate_schema (.jobj parsed) =
        some ((missingOf parsed).isEmpty,
          if (missingOf parsed).isEmpty then "OK"
          else "Missing fields: " ++ String.intercalate ", " (missingOf parsed))) ∧
    (∀ parsed : PyDict,
      (validate_schema (.jobj parsed)).map Prod.fst = some false ↔
        (pyHasKey parsed "L1" = false ∨ pyHasKey parsed "L2" = false ∨
          pyHasKey parsed "L3" = false)) ∧
    (∀ v1 v2 : JVal,
      validate_schema (.jobj [("L1", v1), ("L2", v2), ("L3", .jstr "")]) =
        some (true, "OK")) ∧
    (∀ v1 v2 : JVal,
      validate_schema (.jobj [("L1", v1), ("L2", v2)]) =
        some (false, "Missing fields: L3")) := by
  refine ⟨?_, ?_, ?_, ?_⟩
  · intro parsed
    cases h1 : pyHasKey parsed "L1" <;> cases h2 : pyHasKey parsed "L2" <;>
      cases h3 : pyHasKey parsed "L3" <;>
        simp [validate_schema, pyContains, missingOf, h1, h2, h3]
  · intro parsed
    cases h1 : pyHasKey parsed "L1" <;> cases h2 : pyHasKey parsed "L2" <;>
      cases h3 : pyHasKey parsed "L3" <;>
        simp [validate_schema, pyContains, h1, h2, h3]
  · intro v1 v2
    rfl
  · intro v1 v2
    rfl

/-- C9 counterexample: a parsed record carrying the required fields under
lowercase keys `l1`, `l2`, `l3` does NOT pass schema validation (the claim
asserts it does): the validator reports all three exact-case keys missing. -/
theorem po_c9_counterexample :
    validate_schema (.jobj [("l1", JVal.jstr "IT"), ("l2", JVal.jstr "Hardware"),
        ("l3", JVal.jstr "Laptop")]) =
      some (false, "Missing fields: L1, L2, L3") := by decide

/-- C9 amended: the schema validator's required-key presence check is
exact-case, so a record keyed `l1`/`l2`/`l3` in lowercase fails validation
with all three names reported missing, even though the case-insensitive
level extraction still finds all three values. -/
theorem po_c9_amended (v1 v2 v3 : JVal) :
    validate_schema (.jobj [("l1", v1), ("l2", v2), ("l3", v3)]) =
        some (false, "Missing fields: L1, L2, L3") ∧
      extract_levels [("l1", v1), ("l2", v2), ("l3", v3)] = (v1, v2, v3) := by
  exact ⟨rfl, rfl⟩

/-- C7: the response parser returns a structured mapping input as-is
unchanged; for a string input it attempts strict JSON decoding and returns
`None` on any decode failure, with no partial recovery — every non-`None`
result of a string input is exactly the strict decode, and common
almost-JSON shapes (single quotes, bare keys) are rejected, never repaired.
`classifier.parse_model_response` implements the same string path. -/
theorem po_c7_parser_strict :
    (∀ fs : PyDict, parse_result (.jobj fs) = .jobj fs) ∧
    (∀ s : String, jsonLoads s = none → parse_result (.jstr s) = JVal.jnull) ∧
    (∀ (s : String) (v : JVal), parse_result (.jstr s) = v → v ≠ JVal.jnull →
      jsonLoads s = some v) ∧
    (∀ s : String, parse_model_response s = parse_result (.jstr s)) ∧
    parse_result (.jstr "\x7b'L1': 'IT', 'L2': 'Hardware', 'L3': 'Laptop'\x7d") =
      JVal.jnull ∧
    parse_result (.jstr "L1: IT") = JVal.jnull := by
  refine ⟨fun fs => rfl, ?_, ?_, fun s => rfl, by decide, by decide⟩
  · intro s h
    simp [parse_result, h]
  · intro s v h hne
    cases hj : jsonLoads s with
    | none => simp [parse_result, hj] at h; exact absurd h.symm hne
    | some w => simp [parse_result, hj] at h; rw [h]

/-- Casting `ipow10` to the rationals. -/
theorem ipow10_cast (k : Nat) : ((ipow10 k : Int) : ℚ) = (10 : ℚ) ^ k := by
  simp [ipow10]

/-- The cross-multiplied mantissa of the comparison functions is the value
scaled by `10 ^ (-e')`. -/
theorem pynum_scaled (m e e' : Int) (h : e' ≤ e) :
    ((m * ipow10 (e - e').toNat : Int) : ℚ) =
      (m : ℚ) * (10 : ℚ) ^ e * (10 : ℚ) ^ (-e') := by
  push_cast [ipow10_cast]
  rw [← zpow_natCast (10 : ℚ), Int.toNat_of_nonneg (by omega),
    zpow_sub₀ (by norm_num : (10 : ℚ) ≠ 0), zpow_neg]
  rw [mul_assoc, div_eq_mul_inv]

/-- `PyNum.le` decides the rational order on values. -/
theorem PyNum.le_iff (a b : PyNum) : PyNum.le a b = true ↔ a.val ≤ b.val := by
  have hpos : ∀ e : Int, (0 : ℚ) < (10 : ℚ) ^ e :=
    fun e => zpow_pos (by norm_num) e
  have hcancel : ∀ (m : Int) (e : Int), (m : ℚ) * (10 : ℚ) ^ e * (10 : ℚ) ^ (-e) = m := by
    intro m e
    rw [mul_assoc, ← zpow_add₀ (by norm_num : (10 : ℚ) ≠ 0)]
    simp
  unfold PyNum.le PyNum.val
  by_cases h : b.exp10 ≤ a.exp10
  · rw [if_pos h, decide_eq_true_eq,
      ← mul_le_mul_right (hpos (-b.exp10)), hcancel b.mant b.exp10,
      ← pynum_scaled a.mant a.exp10 b.exp10 h, Int.cast_le]
  · have h' : a.exp10 ≤ b.exp10 := le_of_lt (lt_of_not_le h)
    rw [if_neg h, decide_eq_true_eq,
      ← mul_le_mul_right (hpos (-a.exp10)), hcancel a.mant a.exp10,
      ← pynum_scaled b.mant b.exp10 a.exp10 h', Int.cast_le]

/-- `PyNum.lt` decides the strict rational order on values. -/
theorem PyNum.lt_iff (a b : PyNum) : PyNum.lt a b = true ↔ a.val < b.val := by
  have hpos : ∀ e : Int, (0 : ℚ) < (10 : ℚ) ^ e :=
    fun e => zpow_pos (by norm_num) e
  have hcancel : ∀ (m : Int) (e : Int), (m : ℚ) * (10 : ℚ) ^ e * (10 : ℚ) ^ (-e) = m := by
    intro m e
    rw [mul_assoc, ← zpow_add₀ (by norm_num : (10 : ℚ) ≠ 0)]
    simp
  unfold PyNum.lt PyNum.val
  by_cases h : b.exp10 ≤ a.exp10
  · rw [if_pos h, decide_eq_true_eq,
      ← mul_lt_mul_right (hpos (-b.exp10)), hcancel b.mant b.exp10,
      ← pynum_scaled a.mant a.exp10 b.exp10 h, Int.cast_lt]
  · have h' : a.exp10 ≤ b.exp10 := le_of_lt (lt_of_not_le h)
    rw [if_neg h, decide_eq_true_eq,
      ← mul_lt_mul_right (hpos (-a.exp10)), hcancel a.mant a.exp10,
      ← pynum_scaled b.mant b.exp10 a.exp10 h', Int.cast_lt]

/-- `a < b` is the negation of `b ≤ a` on exact decimals. -/
theorem PyNum.lt_eq_not_le (a b : PyNum) : PyNum.lt a b = !PyNum.le b a := by
  by_cases h : PyNum.lt a b = true
  · rw [h]
    have := (PyNum.lt_iff a b).mp h
    have hle : ¬ PyNum.le b a = true := by
      rw [PyNum.le_iff]
      exact not_le.mpr this
    simp [Bool.not_eq_true] at hle
    rw [hle]
    rfl
  · simp only [Bool.not_eq_true] at h
    rw [h]
    have hv : ¬ a.val < b.val := by
      intro hc
      rw [← PyNum.lt_iff] at hc
      simp [hc] at h
    have hle : PyNum.le b a = true := by
      rw [PyNum.le_iff]
      exact not_lt.mp hv
    rw [hle]
    rfl

/-- On floats, `a < b` forces `b ≤ a` to be false (vacuous when a nan is
involved, since every comparison with nan is already false). -/
theorem PyFloat.lt_imp_not_le (a b : PyFloat) (h : PyFloat.lt a b = true) :
    PyFloat.le b a = false := by
  cases a with
  | nan => simp [PyFloat.lt] at h
  | pinf => cases b <;> simp [PyFloat.lt] at h
  | ninf =>
    cases b with
    | nan => simp [PyFloat.lt] at h
    | ninf => simp [PyFloat.lt] at h
    | pinf => rfl
    | fin y => rfl
  | fin x =>
    cases b with
    | nan => simp [PyFloat.lt] at h
    | ninf => simp [PyFloat.lt] at h
    | pinf => rfl
    | fin y =>
      have hlt : PyNum.lt x y = true := h
      have heq := PyNum.lt_eq_not_le x y
      rw [hlt] at heq
      show PyNum.le y x = false
      cases hle : PyNum.le y x
      · rfl
      · rw [hle] at heq
        exact absurd heq.symm (by decide)

/-- A float below 0.5 is not at or above 0.8. -/
theorem PyFloat.lt_half_not_le_eight (x : PyFloat)
    (h : PyFloat.lt x (.fin ⟨5, -1⟩) = true) :
    PyFloat.le (.fin ⟨8, -1⟩) x = false := by
  cases x with
  | nan => simp [PyFloat.lt] at h
  | pinf => simp [PyFloat.lt] at h
  | ninf => rfl
  | fin a =>
    have hlt : PyNum.lt a ⟨5, -1⟩ = true := h
    show PyNum.le ⟨8, -1⟩ a = false
    cases hle : PyNum.le ⟨8, -1⟩ a
    · rfl
    · exfalso
      have hxv := (PyNum.lt_iff a ⟨5, -1⟩).mp hlt
      have h8v := (PyNum.le_iff ⟨8, -1⟩ a).mp hle
      have h58 : PyNum.val ⟨5, -1⟩ < PyNum.val ⟨8, -1⟩ :=
        (PyNum.lt_iff ⟨5, -1⟩ ⟨8, -1⟩).mp (by decide)
      linarith

/-- C4 counterexample: `{"confidence": "nan"}` is a reachable parsed
record; `float("nan")` is nan, the code's range check
`value < 0 or value > 1` is false on both sides for nan, so the
interpreter returns the nan non-null although it does not lie in `[0, 1]`
(neither bound comparison holds), and the label is `Low (nan)` although
nan is not `< 0.5` — refuting the claim that a value outside `[0, 1]`
yields null. -/
theorem po_c4_counterexample :
    confidence_value (.jobj [("confidence", JVal.jstr "nan")]) =
      some PyFloat.nan ∧
    (PyFloat.le (.fin ⟨0, 0⟩) PyFloat.nan ||
      PyFloat.le PyFloat.nan (.fin ⟨1, 0⟩)) = false ∧
    PyFloat.lt PyFloat.nan (.fin ⟨5, -1⟩) = false ∧
    confidence_label (some PyFloat.nan) = "Low (nan)" :=
  ⟨by decide, by decide, by decide, by decide⟩

/-- C4 amended: the confidence interpreter yields `None` when the field is
absent (or JSON `null`), when `float` coercion fails, or when the coerced
value satisfies the code's check `value < 0 or value > 1` — which for
finite values means exactly outside `[0, 1]` inclusive (never clamping,
the in-range value is returned unchanged), but is false on both sides for
nan, so a nan confidence (reachable as the string `"nan"`) is returned
non-null and, failing both band tests, labeled `Low (nan)`. For the
values the bands order, the label is "High" for `≥ 0.8` (0.8 exactly
High), "Medium" for `≥ 0.5` and `< 0.8` (0.5 exactly Medium), "Low" for
`< 0.5`, and `-` when absent. -/
theorem po_c4_amended :
    (∀ fs : PyDict, (pyGet fs "confidence").getD JVal.jnull = JVal.jnull →
      confidence_value (.jobj fs) = none) ∧
    (∀ (fs : PyDict) (v : JVal), pyGet fs "confidence" = some v →
      pyFloat v = none → confidence_value (.jobj fs) = none) ∧
    (∀ (fs : PyDict) (v : JVal) (x : PyFloat), pyGet fs "confidence" = some v →
      pyFloat v = some x →
      (PyFloat.lt x (.fin ⟨0, 0⟩) || PyFloat.lt (.fin ⟨1, 0⟩) x) = true →
      confidence_value (.jobj fs) = none) ∧
    (∀ (fs : PyDict) (v : JVal) (x : PyFloat), pyGet fs "confidence" = some v →
      v ≠ JVal.jnull → pyFloat v = some x →
      (PyFloat.lt x (.fin ⟨0, 0⟩) || PyFloat.lt (.fin ⟨1, 0⟩) x) = false →
      confidence_value (.jobj fs) = some x) ∧
    confidence_label none = "-" ∧
    (∀ x : PyFloat, PyFloat.le (.fin ⟨8, -1⟩) x = true →
      confidence_label (some x) = "High (" ++ PyFloat.fmt x ++ ")") ∧
    (∀ x : PyFloat, PyFloat.lt x (.fin ⟨8, -1⟩) = true →
      PyFloat.le (.fin ⟨5, -1⟩) x = true →
      confidence_label (some x) = "Medium (" ++ PyFloat.fmt x ++ ")") ∧
    (∀ x : PyFloat, PyFloat.lt x (.fin ⟨5, -1⟩) = true →
      confidence_label (some x) = "Low (" ++ PyFloat.fmt x ++ ")") ∧
    confidence_label (some (.fin ⟨8, -1⟩)) = "High (0.80)" ∧
    confidence_label (some (.fin ⟨5, -1⟩)) = "Medium (0.50)" ∧
    confidence_label (some (.fin ⟨79, -2⟩)) = "Medium (0.79)" ∧
    confidence_value (.jobj [("confidence", .jnum ⟨15, -1⟩)]) = none ∧
    confidence_value (.jobj [("confidence", .jnum ⟨-1, -1⟩)]) = none ∧
    pyFloatOfString "0.2_5" = some (.fin ⟨25, -2⟩) ∧
    confidence_value (.jobj [("confidence", JVal.jstr "nan")]) =
      some PyFloat.nan ∧
    confidence_label (some PyFloat.nan) = "Low (nan)" ∧
    confidence_value (.jobj [("confidence", JVal.jstr "inf")]) = none ∧
    confidence_value (.jobj [("confidence", JVal.jstr "-inf")]) = none := by
  refine ⟨?_, ?_, ?_, ?_, rfl, ?_, ?_, ?_, by decide, by decide, by decide,
    by decide, by decide, by decide, by decide, by decide, by decide,
    by decide⟩
  · intro fs h
    simp [confidence_value, h]
  · intro fs v h hf
    cases v <;> simp [confidence_value, h, hf]
  · intro fs v x h hf hrange
    cases v <;> simp [confidence_value, h] <;> simp_all [pyFloat]
  · intro fs v x h hv hf hrange
    cases v <;> simp [confidence_value, h] <;> simp_all [pyFloat]
  · intro x hx
    simp [confidence_label, hx]
  · intro x hx8 hx5
    have h8 : PyFloat.le (.fin ⟨8, -1⟩) x = false :=
      PyFloat.lt_imp_not_le x (.fin ⟨8, -1⟩) hx8
    simp [confidence_label, h8, hx5]
  · intro x hx5
    have h5 : PyFloat.le (.fin ⟨5, -1⟩) x = false :=
      PyFloat.lt_imp_not_le x (.fin ⟨5, -1⟩) hx5
    have h8 : PyFloat.le (.fin ⟨8, -1⟩) x = false :=
      PyFloat.lt_half_not_le_eight x hx5
    simp [confidence_label, h5, h8]

/-- C3: for every parsed record, the taxonomy validator reports the
incomplete outcome when the case-insensitive lookup of L1 or L2 yields
null/absent; otherwise it builds the composite key
`trim(L1)|trim(L2)|trim(L3 or "")` and reports Valid exactly when that key
is a member of the taxonomy table, and NotInTaxonomy otherwise. -/
theorem po_c3_taxonomy_validator (parsed : PyDict) :
    ((extract_levels parsed).1 = JVal.jnull ∨ (extract_levels parsed).2.1 = JVal.jnull →
      taxonomy_status parsed =
        (none, "Classification missing L1/L2 fields - needs review.")) ∧
    ((extract_levels parsed).1 ≠ JVal.jnull → (extract_levels parsed).2.1 ≠ JVal.jnull →
      (taxonomyKeyOf parsed ∈ get_taxonomy_set →
        taxonomy_status parsed = (some true, "Classification matches taxonomy.")) ∧
      (taxonomyKeyOf parsed ∉ get_taxonomy_set →
        taxonomy_status parsed =
          (some false, "Classification not in taxonomy - needs review."))) := by
  constructor
  · intro h
    simp only [taxonomy_status]
    rw [if_pos h]
  · intro h1 h2
    constructor <;> intro hk <;> simp only [taxonomy_status, taxonomyKeyOf] at hk ⊢ <;>
      rw [if_neg (by simp [h1, h2])]
    · rw [if_neg (by simpa using hk)]
    · rw [if_pos (by simpa using hk)]

/-- C3 witness: the theorem instantiated at the three concrete shapes — an
in-taxonomy record, a record missing L2, and a not-in-taxonomy record. -/
theorem po_c3_taxonomy_validator_witness :
    taxonomy_status [("L1", JVal.jstr "IT"), ("L2", JVal.jstr "Hardware"),
        ("L3", JVal.jstr "Laptop")] =
      (some true, "Classification matches taxonomy.") ∧
    taxonomy_status [("L1", JVal.jstr "IT")] =
      (none, "Classification missing L1/L2 fields - needs review.") ∧
    taxonomy_status [("L1", JVal.jstr "IT"), ("L2", JVal.jstr "Hardware"),
        ("L3", JVal.jstr "Server")] =
      (some false, "Classification not in taxonomy - needs review.") :=
  ⟨((po_c3_taxonomy_validator _).2 (by decide) (by decide)).1 (by decide),
   (po_c3_taxonomy_validator _).1 (by decide),
   ((po_c3_taxonomy_validator _).2 (by decide) (by decide)).2 (by decide)⟩

/-- C4 amended witness: the amended theorem applied at concrete records
and values — absent field, failed coercion, out-of-range 1.5, in-range
pass-through, and one value in each label band. -/
theorem po_c4_amended_witness :
    confidence_value (.jobj []) = none ∧
    confidence_value (.jobj [("confidence", .jarr [])]) = none ∧
    confidence_value (.jobj [("confidence", .jnum ⟨15, -1⟩)]) = none ∧
    confidence_value (.jobj [("confidence", .jnum ⟨5, -1⟩)]) =
      some (.fin ⟨5, -1⟩) ∧
    confidence_label (some (.fin ⟨9, -1⟩)) =
      "High (" ++ PyFloat.fmt (.fin ⟨9, -1⟩) ++ ")" ∧
    confidence_label (some (.fin ⟨6, -1⟩)) =
      "Medium (" ++ PyFloat.fmt (.fin ⟨6, -1⟩) ++ ")" ∧
    confidence_label (some (.fin ⟨1, -1⟩)) =
      "Low (" ++ PyFloat.fmt (.fin ⟨1, -1⟩) ++ ")" :=
  ⟨po_c4_amended.1 [] (by decide),
   po_c4_amended.2.1 [("confidence", .jarr [])] (.jarr [])
     (by decide) (by decide),
   po_c4_amended.2.2.1 [("confidence", .jnum ⟨15, -1⟩)]
     (.jnum ⟨15, -1⟩) (.fin ⟨15, -1⟩) (by decide) (by decide) (by decide),
   po_c4_amended.2.2.2.1 [("confidence", .jnum ⟨5, -1⟩)]
     (.jnum ⟨5, -1⟩) (.fin ⟨5, -1⟩) (by decide) (by decide) (by decide)
     (by decide),
   po_c4_amended.2.2.2.2.2.1 (.fin ⟨9, -1⟩) (by decide),
   po_c4_amended.2.2.2.2.2.2.1 (.fin ⟨6, -1⟩) (by decide) (by decide),
   po_c4_amended.2.2.2.2.2.2.2.1 (.fin ⟨1, -1⟩) (by decide)⟩

/-- C5 witness: the validator theorem applied at a record missing only L3
and at a complete record with an empty-string L3. -/
theorem po_c5_schema_validator_witness :
    validate_schema (.jobj [("L1", JVal.jstr "IT"), ("L2", JVal.jstr "Hardware")]) =
      some ((missingOf [("L1", JVal.jstr "IT"), ("L2", JVal.jstr "Hardware")]).isEmpty,
        if (missingOf [("L1", JVal.jstr "IT"), ("L2", JVal.jstr "Hardware")]).isEmpty
        then "OK"
        else "Missing fields: " ++ String.intercalate ", "
          (missingOf [("L1", JVal.jstr "IT"), ("L2", JVal.jstr "Hardware")])) ∧
    ((validate_schema (.jobj [("L1", JVal.jstr "IT"),
        ("L2", JVal.jstr "Hardware")])).map Prod.fst = some false) ∧
    validate_schema (.jobj [("L1", JVal.jstr "IT"), ("L2", JVal.jstr "Hardware"),
        ("L3", .jstr "")]) = some (true, "OK") :=
  ⟨po_c5_schema_validator.1 [("L1", JVal.jstr "IT"), ("L2", JVal.jstr "Hardware")],
   (po_c5_schema_validator.2.1 [("L1", JVal.jstr "IT"),
      ("L2", JVal.jstr "Hardware")]).mpr (by decide),
   po_c5_schema_validator.2.2.1 (JVal.jstr "IT") (JVal.jstr "Hardware")⟩

/-- C7 witness: the parser theorem applied at concrete inputs — a
non-JSON string decodes to `None`, and a decoded value is exactly the
strict decode. -/
theorem po_c7_parser_strict_witness :
    parse_result (.jstr "not json") = JVal.jnull ∧
    jsonLoads "[1]" = some (JVal.jarr [JVal.jnum ⟨1, 0⟩]) :=
  ⟨po_c7_parser_strict.2.1 "not json" (by decide),
   po_c7_parser_strict.2.2.1 "[1]" (JVal.jarr [JVal.jnum ⟨1, 0⟩])
     (by decide) (by decide)⟩

/-- On a cache hit, `_cached_classify` returns the cached value and leaves
the state untouched. -/
theorem cached_classify_hit (d s : String) (st : OrchState)
    (oracle : Nat → Option String) (v : JVal)
    (h : assocGet st.cache (cache_key d s) = some v) :
    cached_classify d s st oracle = (.ok v, st) := by
  simp [cached_classify, h]

/-- On a cache miss with a delivered response, `_cached_classify` parses
it, writes through exactly when the parse is not `None`, and counts one
invocation. -/
theorem cached_classify_miss (d s : String) (st : OrchState)
    (oracle : Nat → Option String) (r : String)
    (hmiss : assocGet st.cache (cache_key d s) = none)
    (hr : oracle st.calls = some r) :
    cached_classify d s st oracle =
      (.ok (parse_result (.jstr r)),
        ⟨if parse_result (.jstr r) = JVal.jnull then st.cache
          else st.cache ++ [(cache_key d s, parse_result (.jstr r))],
          st.calls + 1⟩) := by
  by_cases hp : parse_result (.jstr r) = JVal.jnull <;>
    simp [cached_classify, hmiss, hr, hp]

/-- On a cache miss with a raising collaborator, `_cached_classify`
propagates the exception after one counted invocation. -/
theorem cached_classify_raise (d s : String) (st : OrchState)
    (oracle : Nat → Option String)
    (hmiss : assocGet st.cache (cache_key d s) = none)
    (hr : oracle st.calls = none) :
    cached_classify d s st oracle = (.error (), ⟨st.cache, st.calls + 1⟩) := by
  simp [cached_classify, hmiss, hr]

/-- `_cached_classify` performs at most one collaborator invocation. -/
theorem cached_classify_calls_le (d s : String) (st : OrchState)
    (oracle : Nat → Option String) :
    (cached_classify d s st oracle).2.calls ≤ st.calls + 1 := by
  cases h : assocGet st.cache (cache_key d s) with
  | none =>
    cases ho : oracle st.calls with
    | none => rw [cached_classify_raise d s st oracle h ho]
    | some r => rw [cached_classify_miss d s st oracle r h ho]
  | some v =>
    rw [cached_classify_hit d s st oracle v h]
    exact Nat.le_add_right _ _

/-- The final stage of the Single handler never changes the state. -/
theorem finalStage_state (p : JVal) (st2 : OrchState) :
    (finalStage p st2).2 = st2 := by
  unfold finalStage
  split
  · rfl
  · split
    · rfl
    · split
      · rfl
      · split <;> rfl

/-- The retry block keeps the cache and counts one invocation. -/
theorem doRetry_state (st1 : OrchState) (oracle : Nat → Option String) :
    (doRetry st1 oracle).2 = ⟨st1.cache, st1.calls + 1⟩ := by
  unfold doRetry
  split <;> rfl

/-- The classification stage never touches the cache beyond the cached
classification step: the retry result is not written back. -/
theorem classifyStage_cache (desc supp : String) (st : OrchState)
    (oracle : Nat → Option String) :
    (classifyStage desc supp st oracle).2.cache =
      (cached_classify desc supp st oracle).2.cache := by
  unfold classifyStage
  rcases hcc : cached_classify desc supp st oracle with ⟨res, st1⟩
  cases res
  · rfl
  · dsimp only
    split
    · rfl
    · split
      · rw [finalStage_state, doRetry_state]
      · rw [finalStage_state]

/-- The classification stage performs at most two collaborator
invocations. -/
theorem classifyStage_calls_le (desc supp : String) (st : OrchState)
    (oracle : Nat → Option String) :
    (classifyStage desc supp st oracle).2.calls ≤ st.calls + 2 := by
  have h1 := cached_classify_calls_le desc supp st oracle
  unfold classifyStage
  rcases hcc : cached_classify desc supp st oracle with ⟨res, st1⟩
  rw [hcc] at h1
  have h1c : st1.calls ≤ st.calls + 1 := h1
  cases res
  · exact Nat.le_succ_of_le h1c
  · dsimp only
    split
    · exact Nat.le_succ_of_le h1c
    · split
      · rw [finalStage_state, doRetry_state]
        show st1.calls + 1 ≤ st.calls + 2
        omega
      · rw [finalStage_state]
        exact Nat.le_succ_of_le h1c

/-- Under passing input guards the Single handler is the classification
stage on the stripped inputs. -/
theorem runSingle_eq_stage (d s : String) (st : OrchState)
    (oracle : Nat → Option String) (hg : guardsPass d s) :
    runSingle d s st oracle = classifyStage (pyStrip d) (pyStrip s) st oracle := by
  obtain ⟨h1, h2, h3⟩ := hg
  simp only [runSingle]
  rw [if_neg h1, if_neg h2, if_neg h3]

/-- The Single handler performs at most two collaborator invocations. -/
theorem runSingle_calls_le (d s : String) (st : OrchState)
    (oracle : Nat → Option String) :
    (runSingle d s st oracle).2.calls ≤ st.calls + 2 := by
  simp only [runSingle]
  by_cases h1 : pyStrip d = ""
  · rw [if_pos h1]
    exact Nat.le_add_right _ _
  · rw [if_neg h1]
    by_cases h2 : (pyStrip d).length < 10
    · rw [if_pos h2]
      exact Nat.le_add_right _ _
    · rw [if_neg h2]
      by_cases h3 : pyStrip s ≠ "" ∧ (pyStrip s).length > 80
      · rw [if_pos h3]
        exact Nat.le_add_right _ _
      · rw [if_neg h3]
        exact classifyStage_calls_le _ _ _ _

/-- C1 counterexample: after one cached classification whose response
parses to a record missing L2 and L3, the cache holds a value the schema
validator rejects — refuting the claim that every cached value is
schema-valid (the write-through happens before any schema validation). -/
theorem po_c1_counterexample :
    assocGet ((cached_classify "annual maintenance contract" "" ⟨[], 0⟩
        (fun _ => some "\x7b\"L1\":\"IT\"\x7d")).2.cache)
      (cache_key "annual maintenance contract" "") =
        some (JVal.jobj [("L1", JVal.jstr "IT")]) ∧
    (validate_schema (JVal.jobj [("L1", JVal.jstr "IT")])).map Prod.fst =
      some false :=
  ⟨by decide, by decide⟩

/-- C1 amended: the Orchestrator writes a result through to the cache
exactly when parsing succeeds (result not `None`), with no schema
validation — so cached values need not satisfy the schema validator — and
only the first, cached classification writes: the Single handler's retry
result is never written back. -/
theorem po_c1_amended (d s : String) (st : OrchState)
    (oracle : Nat → Option String) (r : String)
    (hmiss : assocGet st.cache (cache_key d s) = none)
    (hr : oracle st.calls = some r) :
    ((cached_classify d s st oracle).2.cache =
      if parse_result (.jstr r) = JVal.jnull then st.cache
      else st.cache ++ [(cache_key d s, parse_result (.jstr r))]) ∧
    (∀ (d' s' : String) (st' : OrchState) (oracle' : Nat → Option String),
      guardsPass d' s' →
      (runSingle d' s' st' oracle').2.cache =
        (cached_classify (pyStrip d') (pyStrip s') st' oracle').2.cache) := by
  constructor
  · rw [cached_classify_miss d s st oracle r hmiss hr]
  · intro d' s' st' oracle' hg
    rw [runSingle_eq_stage d' s' st' oracle' hg]
    exact classifyStage_cache _ _ _ _

/-- C1 amended witness: the amended theorem applied at a concrete empty
cache, a response missing L2/L3 (cached anyway), and a concrete passing
request for the handler part. -/
theorem po_c1_amended_witness :
    ((cached_classify "annual maintenance contract" "" ⟨[], 0⟩
        (fun _ => some "\x7b\"L1\":\"IT\"\x7d")).2.cache =
      if parse_result (.jstr "\x7b\"L1\":\"IT\"\x7d") = JVal.jnull then
        ([] : List (String × JVal))
      else [] ++ [(cache_key "annual maintenance contract" "",
        parse_result (.jstr "\x7b\"L1\":\"IT\"\x7d"))]) ∧
    (runSingle "annual maintenance contract" "" ⟨[], 0⟩
        (fun _ => some "\x7b\"L1\":\"IT\"\x7d")).2.cache =
      (cached_classify (pyStrip "annual maintenance contract") (pyStrip "")
        ⟨[], 0⟩ (fun _ => some "\x7b\"L1\":\"IT\"\x7d")).2.cache :=
  ⟨(po_c1_amended "annual maintenance contract" "" ⟨[], 0⟩
      (fun _ => some "\x7b\"L1\":\"IT\"\x7d") "\x7b\"L1\":\"IT\"\x7d"
      (by decide) rfl).1,
   (po_c1_amended "annual maintenance contract" "" ⟨[], 0⟩
      (fun _ => some "\x7b\"L1\":\"IT\"\x7d") "\x7b\"L1\":\"IT\"\x7d"
      (by decide) rfl).2 "annual maintenance contract" "" ⟨[], 0⟩
      (fun _ => some "\x7b\"L1\":\"IT\"\x7d") ⟨by decide, by decide, by decide⟩⟩

/-- `validate_schema` raises (returns `none`) on Python `None`. -/
theorem validate_schema_jnull : validate_schema JVal.jnull = none := rfl

/-- The final stage turns a malformed parsed value (unparseable or
schema-invalid) into the terminal invalid-model-response outcome, which
carries no classification record. -/
theorem finalStage_malformed (p : JVal) (st2 : OrchState)
    (hm : p = JVal.jnull ∨ (validate_schema p).map Prod.fst = some false) :
    ∃ m, (finalStage p st2).1 = SingleOutcome.invalidResponse m := by
  rcases hm with h | h
  · refine ⟨none, ?_⟩
    unfold finalStage
    rw [if_pos h]
  · have hne : p ≠ JVal.jnull := by
      intro he
      rw [he, validate_schema_jnull] at h
      simp at h
    rcases hv : validate_schema p with _ | ⟨ok2, msg2⟩
    · rw [hv] at h
      simp at h
    · rw [hv] at h
      simp at h
      refine ⟨some msg2, ?_⟩
      unfold finalStage
      rw [if_neg hne, hv]
      simp [h]

/-- When the first (cache-missing) response is malformed, the
classification stage reduces to the final stage applied to the retry. -/
theorem classifyStage_malformed (desc supp : String) (st : OrchState)
    (oracle : Nat → Option String) (r1 : String)
    (hmiss : assocGet st.cache (cache_key desc supp) = none)
    (hr : oracle st.calls = some r1) (hm : malformedResponse r1) :
    classifyStage desc supp st oracle =
      finalStage (doRetry (cached_classify desc supp st oracle).2 oracle).1
        (doRetry (cached_classify desc supp st oracle).2 oracle).2 := by
  have hcc := cached_classify_miss desc supp st oracle r1 hmiss hr
  unfold classifyStage
  rw [hcc]
  dsimp only
  rcases hm with hA | hB
  · rw [if_pos hA]
    simp
  · have hne : parse_result (.jstr r1) ≠ JVal.jnull := by
      intro he
      rw [he, validate_schema_jnull] at hB
      simp at hB
    rcases hv : validate_schema (parse_result (.jstr r1)) with _ | pr
    · rw [hv] at hB
      simp at hB
    · rw [hv] at hB
      simp at hB
      rw [if_neg hne]
      dsimp only
      rw [if_pos (Or.inr hB)]

/-- C2: for every classification request whose first collaborator response
fails to parse or fails schema validation, the Orchestrator performs
exactly one retry (a second collaborator invocation); if the second
attempt also fails, the outcome is the terminal invalid-model-response
condition, carrying no classification record, with no further collaborator
invocations — and on every run whatsoever the collaborator is invoked at
most twice. -/
theorem po_c2_retry_policy :
    (∀ (d s : String) (st : OrchState) (oracle : Nat → Option String),
      (runSingle d s st oracle).2.calls ≤ st.calls + 2) ∧
    (∀ (d s : String) (st : OrchState) (oracle : Nat → Option String)
      (r1 : String), guardsPass d s →
      assocGet st.cache (cache_key (pyStrip d) (pyStrip s)) = none →
      oracle st.calls = some r1 → malformedResponse r1 →
      (runSingle d s st oracle).2.calls = st.calls + 2) ∧
    (∀ (d s : String) (st : OrchState) (oracle : Nat → Option String)
      (r1 : String), guardsPass d s →
      assocGet st.cache (cache_key (pyStrip d) (pyStrip s)) = none →
      oracle st.calls = some r1 → malformedResponse r1 →
      (oracle (st.calls + 1) = none ∨
        ∃ r2, oracle (st.calls + 1) = some r2 ∧ malformedResponse r2) →
      ∃ m, (runSingle d s st oracle).1 = SingleOutcome.invalidResponse m) := by
  refine ⟨runSingle_calls_le, ?_, ?_⟩
  · intro d s st oracle r1 hg hmiss hr hm
    rw [runSingle_eq_stage d s st oracle hg,
      classifyStage_malformed (pyStrip d) (pyStrip s) st oracle r1 hmiss hr hm,
      finalStage_state, doRetry_state,
      cached_classify_miss (pyStrip d) (pyStrip s) st oracle r1 hmiss hr]
  · intro d s st oracle r1 hg hmiss hr hm h2
    rw [runSingle_eq_stage d s st oracle hg,
      classifyStage_malformed (pyStrip d) (pyStrip s) st oracle r1 hmiss hr hm]
    have hcalls : (cached_classify (pyStrip d) (pyStrip s) st oracle).2.calls =
        st.calls + 1 := by
      rw [cached_classify_miss (pyStrip d) (pyStrip s) st oracle r1 hmiss hr]
    apply finalStage_malformed
    unfold doRetry
    rw [hcalls]
    rcases h2 with h2 | ⟨r2, hr2, hm2⟩
    · rw [h2]
      exact Or.inl rfl
    · rw [hr2]
      exact hm2

/-- C2 witness: a concrete run on an empty cache whose collaborator always
answers non-JSON text — both invocations happen (count goes 0 to 2) and
the outcome is the terminal invalid model response. -/
theorem po_c2_retry_policy_witness :
    (runSingle "annual maintenance contract" "" ⟨[], 0⟩
        (fun _ => some "garbage")).2.calls = 0 + 2 ∧
    ∃ m, (runSingle "annual maintenance contract" "" ⟨[], 0⟩
        (fun _ => some "garbage")).1 = SingleOutcome.invalidResponse m :=
  ⟨po_c2_retry_policy.2.1 "annual maintenance contract" "" ⟨[], 0⟩
      (fun _ => some "garbage") "garbage" ⟨by decide, by decide, by decide⟩
      (by decide) rfl (Or.inl (by decide)),
   po_c2_retry_policy.2.2 "annual maintenance contract" "" ⟨[], 0⟩
      (fun _ => some "garbage") "garbage" ⟨by decide, by decide, by decide⟩
      (by decide) rfl (Or.inl (by decide))
      (Or.inr ⟨"garbage", rfl, Or.inl (by decide)⟩)⟩

/-- C10 counterexample: a response decoding to the JSON array `[1]` is
returned by the parser as that non-mapping value (not `None`), yet in the
Single handler the retry IS triggered — two collaborator invocations occur
— because the non-mapping value fails schema validation, refuting the
claim that such a response "does not trigger the malformed-response
retry". -/
theorem po_c10_counterexample :
    parse_result (.jstr "[1]") = JVal.jarr [JVal.jnum ⟨1, 0⟩] ∧
    (runSingle "annual maintenance contract" "" ⟨[], 0⟩
        (fun _ => some "[1]")).2.calls = 2 :=
  ⟨by decide, by decide⟩

/-- C10 amended: the response parser returns any successfully decoded
value as-is, so a string holding valid non-object JSON is not classified
as unparseable; however, in the Single handler such a decoded array that
fails the schema check still triggers the single retry (the retry
condition is parse failure OR schema invalidity, not parse failure
alone). -/
theorem po_c10_amended :
    (∀ (s : String) (v : JVal), jsonLoads s = some v → v ≠ JVal.jnull →
      parse_result (.jstr s) = v) ∧
    (∀ (d s : String) (st : OrchState) (oracle : Nat → Option String)
      (r : String) (xs : List JVal), guardsPass d s →
      assocGet st.cache (cache_key (pyStrip d) (pyStrip s)) = none →
      oracle st.calls = some r → jsonLoads r = some (.jarr xs) →
      (validate_schema (.jarr xs)).map Prod.fst = some false →
      (runSingle d s st oracle).2.calls = st.calls + 2) := by
  constructor
  · intro s v h hv
    simp [parse_result, h]
  · intro d s st oracle r xs hg hmiss hr hj hvs
    have hp : parse_result (.jstr r) = .jarr xs := by
      simp [parse_result, hj]
    have hm : malformedResponse r := Or.inr (by rw [hp]; exact hvs)
    rw [runSingle_eq_stage d s st oracle hg,
      classifyStage_malformed (pyStrip d) (pyStrip s) st oracle r hmiss hr hm,
      finalStage_state, doRetry_state,
      cached_classify_miss (pyStrip d) (pyStrip s) st oracle r hmiss hr]

/-- C10 amended witness: the amended theorem applied at the decoded array
`[2]` and at a concrete handler run answered with `[2]`. -/
theorem po_c10_amended_witness :
    parse_result (.jstr "[2]") = JVal.jarr [JVal.jnum ⟨2, 0⟩] ∧
    (runSingle "catering for quarterly meeting" "" ⟨[], 0⟩
        (fun _ => some "[2]")).2.calls = 0 + 2 :=
  ⟨po_c10_amended.1 "[2]" (JVal.jarr [JVal.jnum ⟨2, 0⟩]) (by decide) (by decide),
   po_c10_amended.2 "catering for quarterly meeting" "" ⟨[], 0⟩
     (fun _ => some "[2]") "[2]" [JVal.jnum ⟨2, 0⟩]
     ⟨by decide, by decide, by decide⟩ (by decide) rfl (by decide) (by decide)⟩

/-- Lists that agree pointwise up to letter case lowercase to the same
list. -/
theorem caseEqL_map (xs ys : List Char) (h : caseEqL xs ys = true) :
    xs.map pyLowerChar = ys.map pyLowerChar := by
  induction xs generalizing ys with
  | nil => cases ys <;> simp_all [caseEqL]
  | cons x xt ih =>
    cases ys with
    | nil => simp_all [caseEqL]
    | cons y yt =>
      simp only [caseEqL, Bool.and_eq_true, decide_eq_true_eq] at h
      simp [h.1, ih yt h.2]

/-- Inputs differing only in surrounding whitespace and letter case
normalize to the same cache key. -/
theorem cache_key_wsCase (d1 s1 d2 s2 : String)
    (hd : wsCaseVariant d1 d2) (hs : wsCaseVariant s1 s2) :
    cache_key d1 s1 = cache_key d2 s2 := by
  have hdl : pyLower (pyStrip d1) = pyLower (pyStrip d2) :=
    congrArg String.mk (caseEqL_map _ _ hd)
  have hsl : pyLower (pyStrip s1) = pyLower (pyStrip s2) :=
    congrArg String.mk (caseEqL_map _ _ hs)
  unfold cache_key
  rw [hdl, hsl]

/-- Appending a fresh binding to an association list makes it found. -/
theorem assocGet_append_self {α : Type} (m : List (String × α)) (k : String)
    (v : α) (h : assocGet m k = none) :
    assocGet (m ++ [(k, v)]) k = some v := by
  induction m with
  | nil => simp [assocGet]
  | cons p t ih =>
    by_cases hk : p.1 = k
    · exfalso
      simp [assocGet, List.find?, hk] at h
    · have hf1 : List.find? (fun q => q.1 = k) (p :: t) =
          List.find? (fun q => q.1 = k) t :=
        List.find?_cons_of_neg _ (by simp [hk])
    
      have h' : assocGet t k = none := by
        unfold assocGet at h
        rw [hf1] at h
        exact h
      have hf2 : List.find? (fun q => q.1 = k) (p :: (t ++ [(k, v)])) =
          List.find? (fun q => q.1 = k) (t ++ [(k, v)]) :=
        List.find?_cons_of_neg _ (by simp [hk])
      unfold assocGet
      rw [List.cons_append, hf2]
      exact ih h'

/-- C6: the cache key is `lowercase(trim(description))|lowercase(trim(supplier))`,
so inputs differing only in leading/trailing whitespace and letter case
produce the same key; consequently, after a first cached classification
whose response parses, a second call with such variants finds the key in
the cache, returns the cached parsed result, and does not invoke the
collaborator again — exactly one invocation across the two calls. -/
theorem po_c6_cache_normalization :
    (∀ d1 s1 d2 s2 : String, wsCaseVariant d1 d2 → wsCaseVariant s1 s2 →
      cache_key d1 s1 = cache_key d2 s2) ∧
    (∀ (d1 s1 d2 s2 : String) (st : OrchState) (oracle : Nat → Option String)
      (r : String), wsCaseVariant d1 d2 → wsCaseVariant s1 s2 →
      assocGet st.cache (cache_key d1 s1) = none →
      oracle st.calls = some r → parse_result (.jstr r) ≠ JVal.jnull →
      cached_classify d1 s1 st oracle =
        (.ok (parse_result (.jstr r)),
          ⟨st.cache ++ [(cache_key d1 s1, parse_result (.jstr r))],
            st.calls + 1⟩) ∧
      cached_classify d2 s2 (cached_classify d1 s1 st oracle).2 oracle =
        (.ok (parse_result (.jstr r)),
          (cached_classify d1 s1 st oracle).2)) := by
  refine ⟨cache_key_wsCase, ?_⟩
  intro d1 s1 d2 s2 st oracle r hvd hvs hmiss hr hne
  have hkey : cache_key d1 s1 = cache_key d2 s2 := cache_key_wsCase d1 s1 d2 s2 hvd hvs
  have hfirst : cached_classify d1 s1 st oracle =
      (.ok (parse_result (.jstr r)),
        ⟨st.cache ++ [(cache_key d1 s1, parse_result (.jstr r))],
          st.calls + 1⟩) := by
    rw [cached_classify_miss d1 s1 st oracle r hmiss hr, if_neg hne]
  refine ⟨hfirst, ?_⟩
  rw [hfirst]
  have hget : assocGet
      (st.cache ++ [(cache_key d1 s1, parse_result (.jstr r))])
      (cache_key d2 s2) = some (parse_result (.jstr r)) := by
    rw [← hkey]
    exact assocGet_append_self st.cache (cache_key d1 s1) _ hmiss
  exact cached_classify_hit d2 s2 _ oracle _ hget

/-- C6 witness: two concrete calls whose inputs differ only in whitespace
and case — the first writes the parsed record through, the second is a
cache hit with no further invocation (the count stays at one). -/
theorem po_c6_cache_normalization_witness :
    cache_key "Annual HVAC Maintenance" "Acme" =
      cache_key "  annual hvac maintenance " "ACME  " ∧
    cached_classify "Annual HVAC Maintenance" "Acme" ⟨[], 0⟩
        (fun _ => some "\x7b\"L1\":\"IT\",\"L2\":\"Hardware\",\"L3\":\"Laptop\"\x7d") =
      (.ok (parse_result (.jstr
          "\x7b\"L1\":\"IT\",\"L2\":\"Hardware\",\"L3\":\"Laptop\"\x7d")),
        ⟨[] ++ [(cache_key "Annual HVAC Maintenance" "Acme",
          parse_result (.jstr
            "\x7b\"L1\":\"IT\",\"L2\":\"Hardware\",\"L3\":\"Laptop\"\x7d"))], 0 + 1⟩) ∧
    cached_classify "  annual hvac maintenance " "ACME  "
        (cached_classify "Annual HVAC Maintenance" "Acme" ⟨[], 0⟩
          (fun _ => some "\x7b\"L1\":\"IT\",\"L2\":\"Hardware\",\"L3\":\"Laptop\"\x7d")).2
        (fun _ => some "\x7b\"L1\":\"IT\",\"L2\":\"Hardware\",\"L3\":\"Laptop\"\x7d") =
      (.ok (parse_result (.jstr
          "\x7b\"L1\":\"IT\",\"L2\":\"Hardware\",\"L3\":\"Laptop\"\x7d")),
        (cached_classify "Annual HVAC Maintenance" "Acme" ⟨[], 0⟩
          (fun _ => some "\x7b\"L1\":\"IT\",\"L2\":\"Hardware\",\"L3\":\"Laptop\"\x7d")).2) :=
  ⟨po_c6_cache_normalization.1 "Annual HVAC Maintenance" "Acme"
      "  annual hvac maintenance " "ACME  " (by decide) (by decide),
   (po_c6_cache_normalization.2 "Annual HVAC Maintenance" "Acme"
      "  annual hvac maintenance " "ACME  " ⟨[], 0⟩
      (fun _ => some "\x7b\"L1\":\"IT\",\"L2\":\"Hardware\",\"L3\":\"Laptop\"\x7d")
      "\x7b\"L1\":\"IT\",\"L2\":\"Hardware\",\"L3\":\"Laptop\"\x7d"
      (by decide) (by decide) (by decide) rfl (by decide)).1,
   (po_c6_cache_normalization.2 "Annual HVAC Maintenance" "Acme"
      "  annual hvac maintenance " "ACME  " ⟨[], 0⟩
      (fun _ => some "\x7b\"L1\":\"IT\",\"L2\":\"Hardware\",\"L3\":\"Laptop\"\x7d")
      "\x7b\"L1\":\"IT\",\"L2\":\"Hardware\",\"L3\":\"Laptop\"\x7d"
      (by decide) (by decide) (by decide) rfl (by decide)).2⟩

/-- Shape of one Evaluate row: skipped exactly on an empty stripped
description, otherwise appended with a match column among yes/no/error. -/
theorem evalRowStep_shape (row : EvalRow) (oracle : Nat → Option String)
    (calls : Nat) :
    (pyStrip row.description = "" →
      evalRowStep row oracle calls = (none, calls, false)) ∧
    (pyStrip row.description ≠ "" →
      ∃ m, (evalRowStep row oracle calls).1 = some m ∧
        (m = "yes" ∨ m = "no" ∨ m = "error")) := by
  constructor
  · intro h
    unfold evalRowStep
    rw [if_pos h]
  · intro h
    unfold evalRowStep
    rw [if_neg h]
    dsimp only
    cases ho : oracle calls with
    | none => exact ⟨"error", rfl, Or.inr (Or.inr rfl)⟩
    | some raw =>
      dsimp only
      by_cases hp : parse_result (.jstr raw) = JVal.jnull
      · rw [if_pos hp]
        cases ho2 : oracle (calls + 1) with
        | none => exact ⟨"error", rfl, Or.inr (Or.inr rfl)⟩
        | some raw2 =>
          dsimp only
          by_cases hp2 : parse_result (.jstr raw2) = JVal.jnull
          · rw [if_pos hp2]
            exact ⟨"error", rfl, Or.inr (Or.inr rfl)⟩
          · rw [if_neg hp2]
            rcases hv : parse_result (.jstr raw2) with _ | _ | _ | _ | _ | fs <;>
              first
                | exact ⟨"error", rfl, Or.inr (Or.inr rfl)⟩
                | (refine ⟨_, rfl, ?_⟩
                   by_cases hb : (pyEqStr (extract_levels fs).1 (pyStrip row.gl1) &&
                     pyEqStr (extract_levels fs).2.1 (pyStrip row.gl2) &&
                     pyEqStr (if pyFalsy (extract_levels fs).2.2 then JVal.jstr ""
                       else (extract_levels fs).2.2) (pyStrip row.gl3)) = true <;>
                     simp [hb])
      · rw [if_neg hp]
        rcases hv : parse_result (.jstr raw) with _ | _ | _ | _ | _ | fs <;>
          first
            | exact ⟨"error", rfl, Or.inr (Or.inr rfl)⟩
            | (refine ⟨_, rfl, ?_⟩
               by_cases hb : (pyEqStr (extract_levels fs).1 (pyStrip row.gl1) &&
                 pyEqStr (extract_levels fs).2.1 (pyStrip row.gl2) &&
                 pyEqStr (if pyFalsy (extract_levels fs).2.2 then JVal.jstr ""
                   else (extract_levels fs).2.2) (pyStrip row.gl3)) = true <;>
                 simp [hb])

/-- `total` counts exactly the rows with a non-empty stripped
description. -/
theorem runEval_total (rows : List EvalRow) (oracle : Nat → Option String)
    (calls : Nat) :
    (runEval rows oracle calls).2.2.1 =
      (rows.filter (fun r => pyStrip r.description ≠ "")).length := by
  induction rows generalizing calls with
  | nil => rfl
  | cons row rest ih =>
    unfold runEval
    rcases hstep : evalRowStep row oracle calls with ⟨mopt, calls2, corr⟩
    by_cases h : pyStrip row.description = ""
    · have hsk := (evalRowStep_shape row oracle calls).1 h
      rw [hstep] at hsk
      injection hsk with hm1 hrest
      subst hm1
      dsimp only
      rw [ih]
      simp [List.filter, h]
    · obtain ⟨m, hm, _⟩ := (evalRowStep_shape row oracle calls).2 h
      rw [hstep] at hm
      simp only at hm
      subst hm
      dsimp only
      rw [ih]
      simp [List.filter, h]
      omega

/-- Every appended match column is yes, no or error. -/
theorem runEval_match_mem (rows : List EvalRow) (oracle : Nat → Option String)
    (calls : Nat) (m : String) (h : m ∈ (runEval rows oracle calls).1) :
    m = "yes" ∨ m = "no" ∨ m = "error" := by
  induction rows generalizing calls with
  | nil => simp [runEval] at h
  | cons row rest ih =>
    unfold runEval at h
    rcases hstep : evalRowStep row oracle calls with ⟨mopt, calls2, corr⟩
    rw [hstep] at h
    by_cases hd : pyStrip row.description = ""
    · have hsk := (evalRowStep_shape row oracle calls).1 hd
      rw [hstep] at hsk
      injection hsk with hm1 hrest
      subst hm1
      exact ih _ h
    · obtain ⟨m0, hm0, hmem⟩ := (evalRowStep_shape row oracle calls).2 hd
      rw [hstep] at hm0
      simp only at hm0
      subst hm0
      dsimp only at h
      rcases List.mem_cons.mp h with he | ht
      · rw [he]
        exact hmem
      · exact ih _ ht

/-- The correct-flag of one Evaluate row whose (first-attempt) response
decodes to a dict: exact string equality of the extracted predictions
against the stripped gold labels, with the L3 falsy-to-empty coercion. -/
theorem evalRowStep_correct (row : EvalRow) (oracle : Nat → Option String)
    (calls : Nat) (raw : String) (fs : PyDict)
    (hd : pyStrip row.description ≠ "") (hr : oracle calls = some raw)
    (hp : parse_result (.jstr raw) = .jobj fs) :
    (evalRowStep row oracle calls).2.2 =
      (pyEqStr (extract_levels fs).1 (pyStrip row.gl1) &&
       pyEqStr (extract_levels fs).2.1 (pyStrip row.gl2) &&
       pyEqStr (if pyFalsy (extract_levels fs).2.2 then JVal.jstr ""
         else (extract_levels fs).2.2) (pyStrip row.gl3)) := by
  unfold evalRowStep
  rw [if_neg hd]
  dsimp only
  rw [hr]
  dsimp only
  rw [hp]
  rw [if_neg (fun hc => JVal.noConfusion hc)]

/-- C8: evaluation accuracy equals `correct / total * 100` where `total`
counts only rows with a non-empty description; a row counts as correct
exactly when predicted L1/L2 equal the gold labels and predicted L3 (or
empty string if falsy) equals gold L3 by exact string equality; every
row's match column is one of yes, no, error; and on the concrete four-row
scenario with three matching rows the accuracy is 75.0%. -/
theorem po_c8_eval_accuracy :
    (∀ (rows : List EvalRow) (oracle : Nat → Option String) (calls : Nat),
      (runEval rows oracle calls).2.2.1 =
        (rows.filter (fun r => pyStrip r.description ≠ "")).length) ∧
    (∀ (rows : List EvalRow) (oracle : Nat → Option String) (calls : Nat)
      (m : String), m ∈ (runEval rows oracle calls).1 →
      m = "yes" ∨ m = "no" ∨ m = "error") ∧
    (∀ (row : EvalRow) (oracle : Nat → Option String) (calls : Nat)
      (raw : String) (fs : PyDict), pyStrip row.description ≠ "" →
      oracle calls = some raw → parse_result (.jstr raw) = .jobj fs →
      (evalRowStep row oracle calls).2.2 =
        (pyEqStr (extract_levels fs).1 (pyStrip row.gl1) &&
         pyEqStr (extract_levels fs).2.1 (pyStrip row.gl2) &&
         pyEqStr (if pyFalsy (extract_levels fs).2.2 then JVal.jstr ""
           else (extract_levels fs).2.2) (pyStrip row.gl3))) ∧
    (∀ correct total : Nat, total ≠ 0 →
      evalAccuracy correct total = (correct : ℚ) / (total : ℚ) * 100) ∧
    (runEval demoRows demoOracle 0).2.1 = 3 ∧
    (runEval demoRows demoOracle 0).2.2.1 = 4 ∧
    evalAccuracy 3 4 = 75 := by
  refine ⟨runEval_total, runEval_match_mem, evalRowStep_correct, ?_,
    by decide, by decide, ?_⟩
  · intro correct total h
    unfold evalAccuracy
    rw [if_neg h]
  · unfold evalAccuracy
    norm_num

/-- C8 witness: the theorem applied at the concrete demo scenario — a
match column from the demo run is in the allowed set, the per-row flag of
the first demo row agrees with the exact comparisons, and the accuracy
formula at `total = 4`. -/
theorem po_c8_eval_accuracy_witness :
    ("yes" = "yes" ∨ "yes" = "no" ∨ "yes" = "error") ∧
    (evalRowStep ⟨"Laptop purchase for new hires", "", "IT", "Hardware",
        "Laptop"⟩ demoOracle 0).2.2 =
      (pyEqStr (extract_levels [("L1", JVal.jstr "IT"),
          ("L2", JVal.jstr "Hardware"), ("L3", JVal.jstr "Laptop")]).1
        (pyStrip "IT") &&
       pyEqStr (extract_levels [("L1", JVal.jstr "IT"),
          ("L2", JVal.jstr "Hardware"), ("L3", JVal.jstr "Laptop")]).2.1
        (pyStrip "Hardware") &&
       pyEqStr (if pyFalsy (extract_levels [("L1", JVal.jstr "IT"),
            ("L2", JVal.jstr "Hardware"), ("L3", JVal.jstr "Laptop")]).2.2
          then JVal.jstr ""
          else (extract_levels [("L1", JVal.jstr "IT"),
            ("L2", JVal.jstr "Hardware"), ("L3", JVal.jstr "Laptop")]).2.2)
        (pyStrip "Laptop")) ∧
    evalAccuracy 3 4 = (3 : ℚ) / (4 : ℚ) * 100 :=
  ⟨po_c8_eval_accuracy.2.1 demoRows demoOracle 0 "yes" (by decide),
   po_c8_eval_accuracy.2.2.1
     ⟨"Laptop purchase for new hires", "", "IT", "Hardware", "Laptop"⟩
     demoOracle 0 "\x7b\"L1\":\"IT\",\"L2\":\"Hardware\",\"L3\":\"Laptop\"\x7d"
     [("L1", JVal.jstr "IT"), ("L2", JVal.jstr "Hardware"),
       ("L3", JVal.jstr "Laptop")] (by decide) (by decide) (by decide),
   po_c8_eval_accuracy.2.2.2.1 3 4 (by decide)⟩
